import Mathlib

/-!
Verification of the metadata embedding/extraction module
(`spotdl/utils/metadata.py`): tag preset tables, `embed_metadata`,
`embed_cover` and `get_file_metadata`, shallowly embedded in Lean.

The audio container handle (a mutagen `File`/`ID3`/`MP4`/`FLAC` object) is
modelled as an association list from native tag keys to tag values, plus a
list of FLAC picture blocks.  Python builtins used by the source
(`str.zfill`, `str.split`, `int`, slicing, `len`) are modelled as explicit
functions on the character list underlying a `String`.  Fallible Python
code (the decode paths that can raise `IndexError`, `ValueError`,
`TypeError`, `AttributeError` or `KeyError`) is modelled in an `Except`
monad.
-/

/-! ### Models of the Python builtins used by the source -/

/-- Python slicing `s[:n]` / indexing-as-slice on strings. -/
def pyTake (s : String) (n : Nat) : String := String.mk (s.data.take n)

/-- Python slicing `s[n:]` on strings (used for `output_file.suffix[1:]`). -/
def pyDrop (s : String) (n : Nat) : String := String.mk (s.data.drop n)

/-- Python `len(s)` for a string. -/
def pyLen (s : String) : Nat := s.data.length

/-- Python `str.zfill(w)` for strings of decimal digits (the only strings the
source applies it to): left-pad with `'0'` up to width `w`. -/
def pyZfill (s : String) (w : Nat) : String :=
  String.mk (List.replicate (w - s.data.length) '0' ++ s.data)

/-- Core of Python `str.split(sep)` for a one-character separator, on the
character list.  `splitChars c [] = [[]]`, matching `"".split(c) == [""]`. -/
def splitChars (c : Char) : List Char → List (List Char)
  | [] => [[]]
  | ch :: rest =>
    match splitChars c rest with
    | [] => [[]]
    | g :: gs => if ch = c then [] :: g :: gs else (ch :: g) :: gs

/-- Python `s.split(c)` for a one-character separator `c`. -/
def pySplit (s : String) (c : Char) : List String :=
  (splitChars c s.data).map List.asString

/-- Whether a string is a non-empty run of decimal digits, i.e. a string on
which Python `int` succeeds (the source only ever applies `int` to such
strings; signs and surrounding whitespace never occur there). -/
def isNatStr (s : String) : Bool :=
  !s.data.isEmpty && s.data.all Char.isDigit

/-- Value of a decimal digit string (`foldl`-style base-10 accumulation). -/
def digitsToNat (s : String) : Nat :=
  s.data.foldl (fun acc c => 10 * acc + (c.toNat - 48)) 0

/-- Python errors that the decode paths of the source can raise. -/
inductive PyErr where
  | indexError
  | typeError
  | valueError
  | attrError
  | keyError
deriving DecidableEq, Repr

/-- Python `int(s)` on a string: the decimal value on a digit string, a
`ValueError` otherwise. -/
def pyInt (s : String) : Except PyErr Nat :=
  if isNatStr s then .ok (digitsToNat s) else .error .valueError

/-! ### Data model: song record, tag values, container handle -/

/-- The caller-supplied song record (`spotdl.types.Song`), restricted to the
fields the metadata module reads.  Optional text fields use `""` for the
falsy/absent case, matching Python truthiness of both `None` and `""`. -/
structure Song where
  name : String
  artists : List String
  artist : String
  album_name : String
  date : String
  publisher : String
  genres : List String
  copyright_text : String
  lyrics : String
  download_url : String
  url : String
  cover_url : String
  disc_number : Nat
  disc_count : Nat
  track_number : Nat
  tracks_count : Nat
  explicit : Bool
deriving DecidableEq, Repr

/-- An ID3 frame as stored in a (non-easy) mutagen `ID3` handle, keyed by its
hash key.  Text-like frames carry their `text` payload; `USLT` carries a plain
string `text`; `WOAS` carries a `url`; `APIC` carries picture data. -/
inductive Frame where
  | text (l : List String)
  | url (u : String)
  | uslt (t : String)
  | comm (l : List String)
  | apic (mime desc : String) (ptype : Nat) (data : List Nat)
deriving DecidableEq, Repr

/-- An MP4 cover atom value (`mutagen.mp4.MP4Cover`); `imageformat = 13` is
`MP4Cover.FORMAT_JPEG`. -/
structure MP4Cover where
  data : List Nat
  imageformat : Nat
deriving DecidableEq, Repr

/-- A native tag value as stored in a container handle: vorbis/easy/MP4 text
lists, MP4 integer-pair lists (`trkn`/`disk`), MP4 integer tuples (`rtng`),
MP4 freeform bytes (kept as the UTF-8-decoded string they encode), MP4 cover
atoms, and ID3 frames. -/
inductive TagValue where
  | vstrs (l : List String)
  | vpairs (l : List (Nat × Nat))
  | vints (l : List Nat)
  | vbytes (s : String)
  | vcovers (l : List MP4Cover)
  | vframe (f : Frame)
deriving DecidableEq, Repr

/-- A FLAC picture block (`mutagen.flac.Picture`); the fields the source does
not assign keep mutagen's zero defaults. -/
structure Picture where
  ptype : Nat
  desc : String
  mime : String
  data : List Nat
  width : Nat := 0
  height : Nat := 0
  depth : Nat := 0
  colors : Nat := 0
deriving DecidableEq, Repr

/-- The tag mapping of a container handle: native key to value, with Python
dict update semantics (a later set shadows an earlier one). -/
def TagMap := List (String × TagValue)
deriving DecidableEq

/-- A container handle: its tag mapping plus (for FLAC) its picture blocks. -/
structure AudioHandle where
  tags : TagMap
  pictures : List Picture
deriving DecidableEq

/-- Set a native tag (Python `handle[key] = value` at the dict level). -/
def tset (t : TagMap) (k : String) (v : TagValue) : TagMap := (k, v) :: t

/-- A path, reduced to what the source inspects: its extension and whether it
exists on disk. -/
structure PyPath where
  suffix : String
  pathExists : Bool

/-- The exception class raised by the write path when the handle could not be
loaded or recognized. -/
inductive MetadataError where
  | unableToLoad
deriving DecidableEq, Repr

/-! ### The static tag preset tables -/

/-- `M4A_TAG_PRESET`: canonical field name to MP4 atom code, in source
order. -/
def M4A_TAG_PRESET : List (String × String) :=
  [("album", "©alb"),
   ("artist", "©ART"),
   ("date", "©day"),
   ("title", "©nam"),
   ("year", "©day"),
   ("originaldate", "purd"),
   ("comment", "©cmt"),
   ("group", "©grp"),
   ("writer", "©wrt"),
   ("genre", "©gen"),
   ("tracknumber", "trkn"),
   ("albumartist", "aART"),
   ("discnumber", "disk"),
   ("cpil", "cpil"),
   ("albumart", "covr"),
   ("encodedby", "©too"),
   ("copyright", "cprt"),
   ("tempo", "tmpo"),
   ("lyrics", "©lyr"),
   ("explicit", "rtng"),
   ("woas", "----:spotdl:WOAS")]

/-- `MP3_TAG_PRESET`: canonical field name to ID3 frame hash key. -/
def MP3_TAG_PRESET : List (String × String) :=
  [("album", "TALB"),
   ("artist", "TPE1"),
   ("date", "TDRC"),
   ("title", "TIT2"),
   ("year", "TDRC"),
   ("originaldate", "TDOR"),
   ("comment", "COMM::XXX"),
   ("group", "TIT1"),
   ("writer", "TEXT"),
   ("genre", "TCON"),
   ("tracknumber", "TRCK"),
   ("albumartist", "TPE2"),
   ("discnumber", "TPOS"),
   ("cpil", "TCMP"),
   ("albumart", "APIC"),
   ("encodedby", "TENC"),
   ("copyright", "TCOP"),
   ("tempo", "TBPM"),
   ("lyrics", "USLT::XXX"),
   ("woas", "WOAS"),
   ("explicit", "NULL")]

/-- `TAG_PRESET = {key: key for key in M4A_TAG_PRESET}`: the generic
(FLAC/OGG/Opus) table maps every canonical key to itself. -/
def TAG_PRESET : List (String × String) :=
  M4A_TAG_PRESET.map (fun kv => (kv.1, kv.1))

/-- `TAG_TO_SONG`: canonical field name to song-record field name. -/
def TAG_TO_SONG : List (String × String) :=
  [("title", "name"),
   ("artist", "artists"),
   ("album", "album_name"),
   ("albumartist", "album_artist"),
   ("genre", "genres"),
   ("discnumber", "disc_number"),
   ("year", "year"),
   ("date", "date"),
   ("tracknumber", "track_number"),
   ("encodedby", "publisher"),
   ("woas", "url"),
   ("copyright", "copyright_text"),
   ("lyrics", "lyrics")]

/-- `M4A_TO_SONG`: native MP4 atom to song-record field (source lines
103-107). -/
def M4A_TO_SONG : List (String × String) :=
  M4A_TAG_PRESET.filterMap
    (fun kv => (TAG_TO_SONG.lookup kv.1).map (fun v => (kv.2, v)))

/-- `MP3_TO_SONG`: native ID3 hash key to song-record field (source lines
108-112). -/
def MP3_TO_SONG : List (String × String) :=
  MP3_TAG_PRESET.filterMap
    (fun kv => (TAG_TO_SONG.lookup kv.1).map (fun v => (kv.2, v)))

/-- The iteration order of `for key in TAG_PRESET` in the read path: the
insertion order of the preset dict. -/
def PRESET_KEYS : List String := TAG_PRESET.map Prod.fst

/-- Python dict access `preset[key]` for the preset tables; the source only
accesses keys present in every table, so the default is never reached. -/
def pk (preset : List (String × String)) (key : String) : String :=
  (preset.lookup key).getD ""

/-- The key mapping of mutagen's `EasyID3` view (an external collaborator):
the simplified MP3 tag keys the write path uses are auto-mapped by the
library to ID3 frames.  Only the keys the source writes are listed. -/
def EASYID3_KEY : List (String × String) :=
  [("album", "TALB"),
   ("artist", "TPE1"),
   ("albumartist", "TPE2"),
   ("title", "TIT2"),
   ("date", "TDRC"),
   ("originaldate", "TDOR"),
   ("encodedby", "TENC"),
   ("genre", "TCON"),
   ("copyright", "TCOP"),
   ("tracknumber", "TRCK"),
   ("discnumber", "TPOS")]

/-! ### The Metadata Writer (`embed_metadata`) -/

/-- A Python value as passed to `handle[key] = value` by the write path. -/
inductive PyVal where
  | s (v : String)
  | list (v : List String)
  | pairList (v : List (Nat × Nat))
  | tup (v : List Nat)
  | bytes (v : String)
deriving DecidableEq, Repr

/-- How the tag libraries encode an assigned Python value: a bare string is
wrapped into a one-element list by both the vorbis-comment and the MP4 text
setters; the other shapes are stored as given. -/
def encodeVal : PyVal → TagValue
  | .s v => .vstrs [v]
  | .list v => .vstrs v
  | .pairList v => .vpairs v
  | .tup v => .vints v
  | .bytes v => .vbytes v

/-- The text payload produced when an easy-MP3 key is assigned a string or a
list of strings (the only shapes the write path assigns for MP3). -/
def easyText : PyVal → List String
  | .s v => [v]
  | .list v => v
  | .pairList _ => []
  | .tup _ => []
  | .bytes _ => []

/-- `audio_file[key] = value`: for MP3 the easy view maps the key to an ID3
frame and stores a text frame; the other formats store the encoded value
under the key itself. -/
def hset (encoding : String) (audio_file : AudioHandle) (key : String)
    (v : PyVal) : AudioHandle :=
  if encoding = "mp3" then
    { audio_file with
      tags := tset audio_file.tags (pk EASYID3_KEY key) (.vframe (.text (easyText v))) }
  else
    { audio_file with tags := tset audio_file.tags key (encodeVal v) }

/-- A conditional assignment `if cond: audio_file[key] = value`. -/
def hsetIf (c : Prop) [Decidable c] (encoding : String) (audio_file : AudioHandle)
    (key : String) (v : PyVal) : AudioHandle :=
  if c then hset encoding audio_file key v else audio_file

/-- `ID3.add(frame)` in the MP3 two-phase finalize: store the frame under its
hash key. -/
def frameAdd (audio_file : AudioHandle) (key : String) (f : Frame) : AudioHandle :=
  { audio_file with tags := tset audio_file.tags key (.vframe f) }

/-- A conditional `ID3.add(frame)` in the MP3 two-phase finalize. -/
def frameAddIf (c : Prop) [Decidable c] (audio_file : AudioHandle) (key : String)
    (f : Frame) : AudioHandle :=
  if c then frameAdd audio_file key f else audio_file

/-- `embed_metadata(output_file, song)`.  The upstream `mutagen File(...)`
load (an external collaborator) is passed in as `loaded`; `none` covers both
a load that raised and a load that returned `None`, and is surfaced as
`MetadataError` before any tag mutation.  The MP3 intermediate
`save()`/`ID3(...)` reopen round-trips the same frames, so it leaves the
modelled handle unchanged. -/
def embed_metadata (output_file : PyPath) (loaded : Option AudioHandle)
    (song : Song) : Except MetadataError AudioHandle :=
  let encoding := pyDrop output_file.suffix 1
  let tag_preset := if encoding = "m4a" then M4A_TAG_PRESET else TAG_PRESET
  match loaded with
  | none => .error .unableToLoad
  | some audio_file =>
    let af := hset encoding audio_file (pk tag_preset "artist") (.list song.artists)
    let af := hset encoding af (pk tag_preset "albumartist") (.s song.artist)
    let af := hset encoding af (pk tag_preset "title") (.s song.name)
    let af := hset encoding af (pk tag_preset "date") (.s song.date)
    let af := hset encoding af (pk tag_preset "originaldate") (.s song.date)
    let af := hset encoding af (pk tag_preset "encodedby") (.s song.publisher)
    let af := hsetIf (song.album_name ≠ "") encoding af
      (pk tag_preset "album") (.s song.album_name)
    let af := hsetIf (song.genres.length > 0) encoding af
      (pk tag_preset "genre") (.list song.genres)
    let af := hsetIf (song.copyright_text ≠ "") encoding af
      (pk tag_preset "copyright") (.s song.copyright_text)
    let af := hsetIf (song.lyrics ≠ "" ∧ encoding ≠ "mp3") encoding af
      (pk tag_preset "lyrics") (.s song.lyrics)
    let af := hsetIf (song.download_url ≠ "" ∧ encoding ≠ "mp3") encoding af
      (pk tag_preset "comment") (.s song.download_url)
    let af :=
      if encoding = "flac" ∨ encoding = "ogg" ∨ encoding = "opus" then
        let zfilled_disc_number :=
          pyZfill (Nat.repr song.disc_number) (pyLen (Nat.repr song.disc_count))
        let zfilled_track_number :=
          pyZfill (Nat.repr song.track_number) (pyLen (Nat.repr song.tracks_count))
        let af := hset encoding af (pk tag_preset "discnumber") (.s zfilled_disc_number)
        let af := hset encoding af (pk tag_preset "tracknumber") (.s zfilled_track_number)
        hset encoding af (pk tag_preset "woas") (.s song.url)
      else if encoding = "m4a" then
        let af := hset encoding af (pk tag_preset "discnumber")
          (.pairList [(song.disc_number, song.disc_count)])
        let af := hset encoding af (pk tag_preset "tracknumber")
          (.pairList [(song.track_number, song.tracks_count)])
        let af := hset encoding af (pk tag_preset "explicit")
          (.tup [if song.explicit = true then 4 else 2])
        hset encoding af (pk tag_preset "woas") (.bytes song.url)
      else if encoding = "mp3" then
        let af := hset encoding af "tracknumber"
          (.s (Nat.repr song.track_number ++ "/" ++ Nat.repr song.tracks_count))
        hset encoding af "discnumber"
          (.s (Nat.repr song.disc_number ++ "/" ++ Nat.repr song.disc_count))
      else af
    let af :=
      if encoding = "mp3" then
        let af := frameAdd af "WOAS" (.url song.url)
        let af := frameAddIf (song.lyrics ≠ "") af "USLT::XXX" (.uslt song.lyrics)
        frameAddIf (song.download_url ≠ "") af "COMM::XXX" (.comm [song.download_url])
      else af
    .ok af

/-! ### The Cover Embedder (`embed_cover`) -/

/-- Big-endian 32-bit serialization of a `Nat` (for the FLAC picture block
layout). -/
def be32 (n : Nat) : List Nat :=
  [n / 2 ^ 24 % 256, n / 2 ^ 16 % 256, n / 2 ^ 8 % 256, n % 256]

/-- UTF-8 bytes of a string, as naturals. -/
def strBytes (s : String) : List Nat :=
  s.toUTF8.toList.map (fun b => b.toNat)

/-- `mutagen.flac.Picture.write()` (external collaborator): the
`METADATA_BLOCK_PICTURE` serialization. -/
def pictureWrite (p : Picture) : List Nat :=
  be32 p.ptype ++ be32 (strBytes p.mime).length ++ strBytes p.mime ++
  be32 (strBytes p.desc).length ++ strBytes p.desc ++
  be32 p.width ++ be32 p.height ++ be32 p.depth ++ be32 p.colors ++
  be32 p.data.length ++ p.data

/-- The base64 alphabet. -/
def b64alpha : List Char :=
  "ABCDEFGHIJKLMNOPQRSTUVWXYZabcdefghijklmnopqrstuvwxyz0123456789+/".data

/-- One base64 output character. -/
def b64digit (n : Nat) : Char := b64alpha.getD n 'A'

/-- Standard base64 encoding of a byte list (`base64.b64encode`, external). -/
def b64encodeCore : List Nat → List Char
  | [] => []
  | [a] => [b64digit (a / 4), b64digit (a % 4 * 16), '=', '=']
  | [a, b] => [b64digit (a / 4), b64digit (a % 4 * 16 + b / 16),
               b64digit (b % 16 * 4), '=']
  | a :: b :: c :: rest =>
      b64digit (a / 4) :: b64digit (a % 4 * 16 + b / 16) ::
      b64digit (b % 16 * 4 + c / 64) :: b64digit (c % 64) :: b64encodeCore rest

/-- `base64.b64encode(bytes).decode("ascii")`. -/
def b64encode (bs : List Nat) : String := String.mk (b64encodeCore bs)

/-- `embed_cover(audio_file, song, encoding)`.  The cover fetch
(`requests.get(...).content`, an external collaborator) is passed in as
`fetched`; `none` models any exception during the fetch, which the source
catches and swallows by returning the handle unchanged.  The function is
total: no error ever propagates to the caller. -/
def embed_cover (audio_file : AudioHandle) (song : Song) (encoding : String)
    (fetched : Option (List Nat)) : AudioHandle :=
  if song.cover_url = "" then audio_file
  else
    match fetched with
    | none => audio_file
    | some cover_data =>
      if encoding = "flac" ∨ encoding = "ogg" ∨ encoding = "opus" then
        let picture : Picture :=
          { ptype := 3, desc := "Cover", mime := "image/jpeg", data := cover_data }
        if encoding = "ogg" ∨ encoding = "opus" then
          { audio_file with
            tags := tset audio_file.tags "metadata_block_picture"
              (.vstrs [b64encode (pictureWrite picture)]) }
        else if encoding = "flac" then
          { audio_file with pictures := audio_file.pictures ++ [picture] }
        else audio_file
      else if encoding = "m4a" then
        { audio_file with
          tags := tset audio_file.tags (pk M4A_TAG_PRESET "albumart")
            (.vcovers [{ data := cover_data, imageformat := 13 }]) }
      else if encoding = "mp3" then
        { audio_file with
          tags := tset audio_file.tags "APIC"
            (.vframe (.apic "image/jpeg" "Cover" 3 cover_data)) }
      else audio_file

/-! ### The Metadata Reader (`get_file_metadata`) -/

/-- A value stored in the returned `song_meta` mapping: strings, integers,
string lists, booleans, Python `None` (recorded for an absent tag with a
song-record counterpart), and `other` for value shapes that cannot occur at
the given key in a recognized audio file (kept distinct so that nothing is
silently conflated). -/
inductive MetaValue where
  | s (v : String)
  | i (v : Nat)
  | sl (v : List String)
  | b (v : Bool)
  | null
  | other
deriving DecidableEq, Repr

/-- The `song_meta` mapping under construction, with dict update semantics
(first match on lookup, new entries consed to the front). -/
def Meta := List (String × MetaValue)
deriving DecidableEq

/-- Apply a list of dict assignments in order. -/
def applyUpdates (m : Meta) (r : List (String × MetaValue)) : Meta :=
  r.foldl (fun acc kv => kv :: acc) m

/-- `audio_file.get(...)` with the per-format key choice of the read loop. -/
def hget (suffix : String) (h : AudioHandle) (key : String) : Option TagValue :=
  if suffix = ".m4a" then h.tags.lookup (pk M4A_TAG_PRESET key)
  else if suffix = ".mp3" then h.tags.lookup (pk MP3_TAG_PRESET key)
  else h.tags.lookup key

/-- The `text` list unwrap used by the read loop for multi-valued fields:
`val[0] if len(val) == 1 else val`. -/
def unwrap (l : List String) : MetaValue :=
  if l.length = 1 then .s (l.headD "") else .sl l

/-- One iteration of the read loop: the dict assignments (in order) that
processing `key` performs on `song_meta`, or the Python error it raises.
Value shapes that cannot occur at the inspected key in a recognized file of
the dispatched format are mapped to an error (where Python indexing or
attribute access would raise) or to `MetaValue.other` (where Python would
store a value with no song-record counterpart shape among the modelled
ones). -/
def decodeKey (suffix : String) (h : AudioHandle) (key : String) :
    Except PyErr (List (String × MetaValue)) :=
  match hget suffix h key with
  | none =>
    match TAG_TO_SONG.lookup key with
    | some empty_key => .ok [(empty_key, .null)]
    | none => .ok []
  | some val =>
    if suffix = ".mp3" then
      match val with
      | .vframe f =>
        if key = "woas" then
          match f with
          | .url u => .ok [("url", .s u)]
          | _ => .error .attrError
        else if key = "year" then
          match f with
          | .text (t :: _) => (pyInt (pyTake t 4)).map (fun n => [("year", .i n)])
          | .text [] => .error .indexError
          | _ => .error .attrError
        else if key = "date" then
          match f with
          | .text (t :: _) => .ok [("date", .s t)]
          | .text [] => .error .indexError
          | _ => .error .attrError
        else if key = "tracknumber" then
          match f with
          | .text (t :: _) =>
            match pySplit t '/' with
            | [a, b] =>
              (pyInt a).bind (fun x => (pyInt b).map (fun y =>
                [("track_number", .i x), ("tracks_count", .i y)]))
            | _ => .ok [("track_number", .s t)]
          | .text [] => .error .indexError
          | _ => .error .attrError
        else if key = "discnumber" then
          match f with
          | .text (t :: _) =>
            match pySplit t '/' with
            | [a, b] =>
              (pyInt a).bind (fun x => (pyInt b).map (fun y =>
                [("disc_number", .i x), ("disc_count", .i y)]))
            | _ => .ok [("disc_number", .s t)]
          | .text [] => .error .indexError
          | _ => .error .attrError
        else
          match TAG_TO_SONG.lookup key with
          | none => .ok []
          | some meta_key =>
            match f with
            | .text l => .ok [(meta_key, unwrap l)]
            | .uslt s => .ok [(meta_key, .s (if s.data.length = 1 then pyTake s 1 else s))]
            | .comm l => .ok [(meta_key, unwrap l)]
            | _ => .error .attrError
      | _ => .error .attrError
    else if suffix = ".m4a" then
      if key = "woas" then
        match val with
        | .vbytes s => .ok [("url", .s s)]
        | _ => .error .attrError
      else if key = "explicit" then
        match val with
        | .vints [] => .ok [("explicit", .null)]
        | .vints l => .ok [("explicit", .b (decide (l = [4])))]
        | .vstrs [] => .ok [("explicit", .null)]
        | .vstrs _ => .ok [("explicit", .b false)]
        | .vpairs [] => .ok [("explicit", .null)]
        | .vpairs _ => .ok [("explicit", .b false)]
        | .vbytes s => .ok [("explicit", if s = "" then .null else .b false)]
        | _ => .ok [("explicit", .b false)]
      else if key = "year" then
        match val with
        | .vstrs (t :: _) => (pyInt (pyTake t 4)).map (fun n => [("year", .i n)])
        | .vstrs [] => .error .indexError
        | _ => .error .typeError
      else if key = "discnumber" then
        match val with
        | .vpairs (p :: _) => .ok [("disc_number", .i p.1), ("disc_count", .i p.2)]
        | .vpairs [] => .error .indexError
        | _ => .error .typeError
      else if key = "tracknumber" then
        match val with
        | .vpairs (p :: _) => .ok [("track_number", .i p.1), ("tracks_count", .i p.2)]
        | .vpairs [] => .error .indexError
        | _ => .error .typeError
      else
        match TAG_TO_SONG.lookup key with
        | none => .ok []
        | some meta_key =>
          match val with
          | .vstrs l => .ok [(meta_key, unwrap l)]
          | _ => .ok [(meta_key, .other)]
    else
      match val with
      | .vstrs l =>
        if key = "originaldate" then
          match l with
          | t :: _ => (pyInt (pyTake t 4)).map (fun n => [("year", .i n)])
          | [] => .error .indexError
        else if key = "tracknumber" then
          match l with
          | t :: _ => (pyInt t).map (fun n => [("track_number", .i n)])
          | [] => .error .indexError
        else if key = "discnumber" then
          match l with
          | t :: _ => (pyInt t).map (fun n => [("disc_count", .i n)])
          | [] => .error .indexError
        else
          match TAG_TO_SONG.lookup key with
          | none => .ok []
          | some meta_key => .ok [(meta_key, unwrap l)]
      | _ => .error .typeError

/-- The read loop of `get_file_metadata` over a list of canonical keys:
decode each key into `song_meta` in order; any Python error aborts the
read. -/
def loopOver (suffix : String) (h : AudioHandle) : List String → Meta → Except PyErr Meta
  | [], m => .ok m
  | key :: keys, m =>
    match decodeKey suffix h key with
    | .error e => .error e
    | .ok r => loopOver suffix h keys (applyUpdates m r)

/-- The full read loop: `for key in TAG_PRESET: ...` starting from an empty
`song_meta`. -/
def readLoop (suffix : String) (h : AudioHandle) : Except PyErr Meta :=
  loopOver suffix h PRESET_KEYS []

/-- The post-processing step
`song_meta["artist"] = song_meta["artists"][0]`: indexing Python semantics on
whatever the loop stored under `"artists"` (a list, an unwrapped single
string, or `None`). -/
def artistPost (m : Meta) : Except PyErr Meta :=
  match m.lookup "artists" with
  | none => .error .keyError
  | some (.sl []) => .error .indexError
  | some (.sl (a :: _)) => .ok (("artist", .s a) :: m)
  | some (.s t) =>
    if t.data.isEmpty then .error .indexError
    else .ok (("artist", .s (pyTake t 1)) :: m)
  | some .null => .error .typeError
  | some _ => .error .typeError

/-- The result of `get_file_metadata`: an `OSError` on a missing path, the
`None` return on an unrecognized or empty handle, a propagated Python decode
error, or the metadata mapping. -/
inductive ReadResult where
  | oserror
  | noneRes
  | pyerror (e : PyErr)
  | ok (m : Meta)
deriving DecidableEq

/-- `get_file_metadata(path)`.  The `mutagen File(...)` load is passed in as
`loaded` (`none` models an unrecognized file); an empty tag set also returns
`None`.  The existence check precedes any handle access. -/
def get_file_metadata (path : PyPath) (loaded : Option AudioHandle) : ReadResult :=
  if path.pathExists = false then .oserror
  else
    match loaded with
    | none => .noneRes
    | some audio_file =>
      if audio_file.tags.isEmpty then .noneRes
      else
        match readLoop path.suffix audio_file with
        | .error e => .pyerror e
        | .ok song_meta =>
          match artistPost song_meta with
          | .error e => .pyerror e
          | .ok m => .ok m

/-! ### Decimal string lemmas: `Nat.repr` round-trips through `pyInt` -/

/-- Digit characters: shape and value, for digits below ten. -/
lemma digitChar_spec : ∀ m : Nat, m < 10 →
    (Nat.digitChar m).isDigit = true ∧ (Nat.digitChar m).toNat - 48 = m := by
  decide

/-- Correctness of the fuel-driven core of `Nat.repr`: it prepends a
non-empty digit string whose base-10 value is the input. -/
lemma toDigitsCore_spec (fuel : Nat) : ∀ (n : Nat) (ds : List Char), n < fuel →
    ∃ L, Nat.toDigitsCore 10 fuel n ds = L ++ ds ∧ L ≠ [] ∧
      (∀ c ∈ L, c.isDigit = true) ∧
      ∀ a : Nat, L.foldl (fun acc c => 10 * acc + (c.toNat - 48)) a =
        a * 10 ^ L.length + n := by
  induction fuel with
  | zero => intro n ds h; omega
  | succ fuel ih =>
    intro n ds _
    by_cases h10 : n / 10 = 0
    · refine ⟨[Nat.digitChar (n % 10)], ?_, by simp, ?_, ?_⟩
      · simp [Nat.toDigitsCore, h10]
      · intro c hc
        simp only [List.mem_singleton] at hc
        subst hc
        exact (digitChar_spec (n % 10) (Nat.mod_lt n (by norm_num))).1
      · intro a
        have hd := (digitChar_spec (n % 10) (Nat.mod_lt n (by norm_num))).2
        have hn : n % 10 = n := by omega
        rw [hn] at hd
        simp only [List.foldl_cons, List.foldl_nil, List.length_singleton, pow_one, hn, hd]
        ring
    · have hpos : 0 < n := by
        rcases Nat.eq_zero_or_pos n with h | h
        · exfalso; apply h10; simp [h]
        · exact h
      have hlt : n / 10 < fuel := by
        have := Nat.div_lt_self hpos (by norm_num : 1 < 10)
        omega
      obtain ⟨L, hEq, hne, hdig, hfold⟩ := ih (n / 10) (Nat.digitChar (n % 10) :: ds) hlt
      refine ⟨L ++ [Nat.digitChar (n % 10)], ?_, by simp, ?_, ?_⟩
      · have hstep : Nat.toDigitsCore 10 (fuel + 1) n ds =
            Nat.toDigitsCore 10 fuel (n / 10) (Nat.digitChar (n % 10) :: ds) := by
          simp [Nat.toDigitsCore, h10]
        rw [hstep, hEq, List.append_assoc]
        rfl
      · intro c hc
        rcases List.mem_append.1 hc with h | h
        · exact hdig c h
        · simp only [List.mem_singleton] at h
          subst h
          exact (digitChar_spec (n % 10) (Nat.mod_lt n (by norm_num))).1
      · intro a
        have hd := (digitChar_spec (n % 10) (Nat.mod_lt n (by norm_num))).2
        rw [List.foldl_append]
        simp only [List.foldl_cons, List.foldl_nil, hfold a, hd, List.length_append,
          List.length_singleton]
        calc 10 * (a * 10 ^ L.length + n / 10) + n % 10
            = a * (10 ^ L.length * 10) + (10 * (n / 10) + n % 10) := by ring
          _ = a * 10 ^ (L.length + 1) + n := by rw [Nat.div_add_mod, pow_succ]

/-- The decimal representation of a natural: non-empty, all digits, and its
base-10 value is the number itself. -/
lemma repr_props (n : Nat) :
    (Nat.repr n).data ≠ [] ∧ (∀ c ∈ (Nat.repr n).data, c.isDigit = true) ∧
    ∀ a : Nat, (Nat.repr n).data.foldl (fun acc c => 10 * acc + (c.toNat - 48)) a =
      a * 10 ^ (Nat.repr n).data.length + n := by
  obtain ⟨L, hEq, hne, hdig, hfold⟩ := toDigitsCore_spec (n + 1) n [] (Nat.lt_succ_self n)
  have hdata : (Nat.repr n).data = L := by
    show (Nat.toDigits 10 n).asString.data = L
    simp [Nat.toDigits, List.asString, hEq]
  rw [hdata]
  exact ⟨hne, hdig, hfold⟩

/-- `Nat.repr` produces a string accepted by the Python `int` model. -/
lemma isNatStr_repr (n : Nat) : isNatStr (Nat.repr n) = true := by
  obtain ⟨hne, hdig, -⟩ := repr_props n
  simp only [isNatStr, Bool.and_eq_true, Bool.not_eq_true', List.isEmpty_eq_false,
    List.all_eq_true]
  constructor
  · simpa using hne
  · exact hdig

/-- Parsing back the decimal representation returns the number. -/
lemma digitsToNat_repr (n : Nat) : digitsToNat (Nat.repr n) = n := by
  obtain ⟨-, -, hfold⟩ := repr_props n
  simpa using hfold 0

/-- Python `int(str(n)) = n` in the model. -/
lemma pyInt_repr (n : Nat) : pyInt (Nat.repr n) = .ok n := by
  simp [pyInt, isNatStr_repr, digitsToNat_repr]

/-- No digit character is the slash separator. -/
lemma no_slash_repr (n : Nat) : '/' ∉ (Nat.repr n).data := by
  obtain ⟨-, hdig, -⟩ := repr_props n
  intro hmem
  have := hdig '/' hmem
  simp at this

/-- The characters underlying a zero-filled string. -/
lemma pyZfill_data (s : String) (w : Nat) :
    (pyZfill s w).data = List.replicate (w - s.data.length) '0' ++ s.data := rfl

/-- Zero-filling a decimal representation still parses as a digit string. -/
lemma isNatStr_zfill_repr (n w : Nat) : isNatStr (pyZfill (Nat.repr n) w) = true := by
  obtain ⟨hne, hdig, -⟩ := repr_props n
  simp only [isNatStr, pyZfill_data, Bool.and_eq_true, Bool.not_eq_true',
    List.isEmpty_eq_false, List.all_eq_true, List.mem_append, List.mem_replicate]
  constructor
  · simp [hne]
  · intro c hc
    rcases hc with h | h
    · rw [h.2]; decide
    · exact hdig c h

/-- Leading zeros do not change the parsed value. -/
lemma digitsToNat_zfill_repr (n w : Nat) : digitsToNat (pyZfill (Nat.repr n) w) = n := by
  obtain ⟨-, -, hfold⟩ := repr_props n
  have hz : ∀ (k : Nat),
      (List.replicate k '0').foldl (fun acc c => 10 * acc + (c.toNat - 48)) 0 = 0 := by
    intro k
    induction k with
    | zero => rfl
    | succ k ih => simpa [List.replicate_succ] using ih
  simp only [digitsToNat, pyZfill_data, List.foldl_append, hz]
  simpa using hfold 0

/-- Python `int` of a zero-filled decimal representation. -/
lemma pyInt_zfill_repr (n w : Nat) : pyInt (pyZfill (Nat.repr n) w) = .ok n := by
  simp [pyInt, isNatStr_zfill_repr, digitsToNat_zfill_repr]

/-! ### Splitting lemmas for the MP3 track and disc fields -/

lemma splitChars_ne_nil (c : Char) (l : List Char) : splitChars c l ≠ [] := by
  cases l with
  | nil => simp [splitChars]
  | cons ch rest =>
    simp only [splitChars]
    rcases h : splitChars c rest with _ | ⟨g, gs⟩
    · simp
    · by_cases hc : ch = c <;> simp [hc]

/-- Splitting a separator-free character list yields a single group. -/
lemma splitChars_no_sep (c : Char) (l : List Char) (h : c ∉ l) :
    splitChars c l = [l] := by
  induction l with
  | nil => rfl
  | cons ch rest ih =>
    have hch : ch ≠ c := fun he => h (by simp [he])
    have hrest : c ∉ rest := fun hm => h (by simp [hm])
    simp only [splitChars, ih hrest]
    simp [hch]

/-- Splitting past a separator-free head group. -/
lemma splitChars_append_sep (c : Char) (a b : List Char) (h : c ∉ a) :
    splitChars c (a ++ c :: b) = a :: splitChars c b := by
  induction a with
  | nil =>
    simp only [List.nil_append, splitChars]
    rcases hsb : splitChars c b with _ | ⟨g, gs⟩
    · exact absurd hsb (splitChars_ne_nil c b)
    · simp
  | cons ch rest ih =>
    have hch : ch ≠ c := fun he => h (by simp [he])
    have hrest : c ∉ rest := fun hm => h (by simp [hm])
    simp only [List.cons_append, splitChars, List.append_eq]
    rw [ih hrest]
    simp [hch]

/-- The string data of an append. -/
lemma sdata_append (x y : String) : (x ++ y).data = x.data ++ y.data := rfl

/-- `String.mk` is the inverse of `String.data`. -/
lemma smk_data (s : String) : String.mk s.data = s := rfl

/-- Python split of a separator-free string. -/
lemma pySplit_no_sep (s : String) (c : Char) (h : c ∉ s.data) :
    pySplit s c = [s] := by
  simp [pySplit, splitChars_no_sep c s.data h, List.asString, smk_data]

/-- Python split of the `"{number}/{count}"` string written by the MP3 write
path recovers the two decimal components. -/
lemma pySplit_slash_repr (n c : Nat) :
    pySplit (Nat.repr n ++ "/" ++ Nat.repr c) '/' = [Nat.repr n, Nat.repr c] := by
  have hdata : (Nat.repr n ++ "/" ++ Nat.repr c).data =
      (Nat.repr n).data ++ '/' :: (Nat.repr c).data := by
    rw [sdata_append, sdata_append, List.append_assoc]
    rfl
  simp [pySplit, hdata, splitChars_append_sep '/' _ _ (no_slash_repr n),
    splitChars_no_sep '/' _ (no_slash_repr c), List.asString, smk_data]

/-! ### Association list and loop lemmas for the read path -/

/-- Looking up past a consed entry with a different key. -/
lemma lookup_cons_ne {β : Type} (k fld : String) (v : β)
    (t : List (String × β)) (h : fld ≠ k) :
    List.lookup fld ((k, v) :: t) = List.lookup fld t := by
  have hb : (fld == k) = false := beq_eq_false_iff_ne.mpr h
  simp [List.lookup, hb]

/-- Looking up the consed entry itself. -/
lemma lookup_cons_self {β : Type} (k : String) (v : β) (t : List (String × β)) :
    List.lookup k ((k, v) :: t) = some v := by
  simp [List.lookup]

/-- A field untouched by a batch of dict assignments keeps its value. -/
lemma lookup_applyUpdates_not_mem (m : Meta) (r : List (String × MetaValue))
    (fld : String) (h : fld ∉ r.map Prod.fst) :
    (applyUpdates m r).lookup fld = m.lookup fld := by
  induction r generalizing m with
  | nil => rfl
  | cons kv rest ih =>
    obtain ⟨k, v⟩ := kv
    have h1 : fld ≠ k := by
      intro he
      exact h (by simp [he])
    have h2 : fld ∉ rest.map Prod.fst := fun hm => h (by simp [hm])
    show (applyUpdates ((k, v) :: m) rest).lookup fld = m.lookup fld
    rw [ih ((k, v) :: m) h2]
    exact lookup_cons_ne k fld v m h1

/-- The output fields that processing a canonical key can touch, per format
branch of the read loop (including the `None` recorded for an absent tag). -/
def allowedFields (suffix : String) (key : String) : List String :=
  if suffix = ".mp3" then
    if key = "woas" then ["url"]
    else if key = "year" then ["year"]
    else if key = "date" then ["date"]
    else if key = "tracknumber" then ["track_number", "tracks_count"]
    else if key = "discnumber" then ["disc_number", "disc_count"]
    else (TAG_TO_SONG.lookup key).toList
  else if suffix = ".m4a" then
    if key = "woas" then ["url"]
    else if key = "explicit" then ["explicit"]
    else if key = "year" then ["year"]
    else if key = "discnumber" then ["disc_number", "disc_count"]
    else if key = "tracknumber" then ["track_number", "tracks_count"]
    else (TAG_TO_SONG.lookup key).toList
  else
    if key = "originaldate" then ["year"]
    else if key = "tracknumber" then ["track_number"]
    else if key = "discnumber" then ["disc_count", "disc_number"]
    else (TAG_TO_SONG.lookup key).toList

/-- Destructing a successful `Except.map`. -/
lemma except_map_ok {ε α β : Type} {e : Except ε α} {f : α → β} {b : β}
    (h : e.map f = .ok b) : ∃ a, e = .ok a ∧ f a = b := by
  cases e with
  | error e => simp [Except.map] at h
  | ok a => exact ⟨a, rfl, by simpa [Except.map] using h⟩

/-- Destructing a successful `Except.bind`. -/
lemma except_bind_ok {ε α β : Type} {e : Except ε α} {f : α → Except ε β} {b : β}
    (h : e.bind f = .ok b) : ∃ a, e = .ok a ∧ f a = .ok b := by
  cases e with
  | error e => simp [Except.bind] at h
  | ok a => exact ⟨a, rfl, by simpa [Except.bind] using h⟩

/-- A song-record counterpart found in `TAG_TO_SONG` is always an allowed
output field of its key. -/
lemma toSong_sub_allowed (suffix key fld : String)
    (hek : TAG_TO_SONG.lookup key = some fld) : fld ∈ allowedFields suffix key := by
  unfold allowedFields
  split_ifs <;> simp_all [TAG_TO_SONG, List.lookup]

/-- Every field written when the MP3 branch of the read loop processes a key
lies in that key's allowed-fields set. -/
lemma decodeKey_fields_mp3 (key : String) (h : AudioHandle)
    (r : List (String × MetaValue)) (hok : decodeKey ".mp3" h key = .ok r) :
    ∀ fld ∈ r.map Prod.fst, fld ∈ allowedFields ".mp3" key := by
  unfold decodeKey at hok
  simp only [reduceIte] at hok
  split at hok
  · split at hok
    · cases hok
      intro fld hfld
      simp only [List.map_cons, List.map_nil, List.mem_singleton] at hfld
      subst hfld
      exact toSong_sub_allowed _ _ _ (by assumption)
    · cases hok
      intro fld hfld
      simp at hfld
  · split at hok
    case _ f =>
      unfold allowedFields
      simp only [reduceIte]
      split at hok
      · split at hok
        · cases hok
          intro fld hfld
          simp_all
        · simp at hok
      · split at hok
        · split at hok
          · obtain ⟨n, hpy, rfl⟩ := except_map_ok hok
            intro fld hfld
            simp_all
          · simp at hok
          · simp at hok
        · split at hok
          · split at hok
            · cases hok
              intro fld hfld
              simp_all
            · simp at hok
            · simp at hok
          · split at hok
            · split at hok
              · split at hok
                · obtain ⟨x, hx, hok2⟩ := except_bind_ok hok
                  obtain ⟨y, hy, rfl⟩ := except_map_ok hok2
                  intro fld hfld
                  simp_all
                · cases hok
                  intro fld hfld
                  simp_all
              · simp at hok
              · simp at hok
            · split at hok
              · split at hok
                · split at hok
                  · obtain ⟨x, hx, hok2⟩ := except_bind_ok hok
                    obtain ⟨y, hy, rfl⟩ := except_map_ok hok2
                    intro fld hfld
                    simp_all
                  · cases hok
                    intro fld hfld
                    simp_all
                · simp at hok
                · simp at hok
              · split at hok
                · cases hok
                  intro fld hfld
                  simp at hfld
                · split at hok
                  · cases hok
                    intro fld hfld
                    simp_all
                  · cases hok
                    intro fld hfld
                    simp_all
                  · cases hok
                    intro fld hfld
                    simp_all
                  · simp at hok
    · simp at hok

/-- Every field written when the M4A branch of the read loop processes a key
lies in that key's allowed-fields set. -/
lemma decodeKey_fields_m4a (key : String) (h : AudioHandle)
    (r : List (String × MetaValue)) (hok : decodeKey ".m4a" h key = .ok r) :
    ∀ fld ∈ r.map Prod.fst, fld ∈ allowedFields ".m4a" key := by
  unfold decodeKey at hok
  simp only [String.reduceEq, reduceIte] at hok
  split at hok
  · split at hok
    · cases hok
      intro fld hfld
      simp only [List.map_cons, List.map_nil, List.mem_singleton] at hfld
      subst hfld
      exact toSong_sub_allowed _ _ _ (by assumption)
    · cases hok
      intro fld hfld
      simp at hfld
  · unfold allowedFields
    simp only [String.reduceEq, reduceIte]
    split at hok
    · -- woas
      split at hok
      · cases hok
        intro fld hfld
        simp_all
      · simp at hok
    · split at hok
      · -- explicit
        split at hok <;> cases hok <;> intro fld hfld <;> simp_all
      · split at hok
        · -- year
          split at hok
          · obtain ⟨n, hpy, rfl⟩ := except_map_ok hok
            intro fld hfld
            simp_all
          · simp at hok
          · simp at hok
        · split at hok
          · -- discnumber
            split at hok
            · cases hok
              intro fld hfld
              simp_all
            · simp at hok
            · simp at hok
          · split at hok
            · -- tracknumber
              split at hok
              · cases hok
                intro fld hfld
                simp_all
              · simp at hok
              · simp at hok
            · -- other keys
              split at hok
              · cases hok
                intro fld hfld
                simp at hfld
              · split at hok
                · cases hok
                  intro fld hfld
                  simp_all
                · cases hok
                  intro fld hfld
                  simp_all

/-- Every field written when the generic (FLAC/OGG/Opus) branch of the read
loop processes a key lies in that key's allowed-fields set. -/
lemma decodeKey_fields_generic (suffix key : String) (h : AudioHandle)
    (hs1 : suffix ≠ ".m4a") (hs2 : suffix ≠ ".mp3")
    (r : List (String × MetaValue)) (hok : decodeKey suffix h key = .ok r) :
    ∀ fld ∈ r.map Prod.fst, fld ∈ allowedFields suffix key := by
  unfold decodeKey at hok
  simp only [if_neg hs1, if_neg hs2] at hok
  split at hok
  · split at hok
    · cases hok
      intro fld hfld
      simp only [List.map_cons, List.map_nil, List.mem_singleton] at hfld
      subst hfld
      exact toSong_sub_allowed _ _ _ (by assumption)
    · cases hok
      intro fld hfld
      simp at hfld
  · unfold allowedFields
    simp only [if_neg hs1, if_neg hs2]
    split at hok
    case _ l =>
      split at hok
      · -- originaldate
        split at hok
        · obtain ⟨n, hpy, rfl⟩ := except_map_ok hok
          intro fld hfld
          simp_all
        · simp at hok
      · split at hok
        · -- tracknumber
          split at hok
          · obtain ⟨n, hpy, rfl⟩ := except_map_ok hok
            intro fld hfld
            simp_all
          · simp at hok
        · split at hok
          · -- discnumber
            split at hok
            · obtain ⟨n, hpy, rfl⟩ := except_map_ok hok
              intro fld hfld
              simp_all
            · simp at hok
          · -- other keys
            split at hok
            · cases hok
              intro fld hfld
              simp at hfld
            · cases hok
              intro fld hfld
              simp_all
    · simp at hok

/-- Unfolding one step of the read loop. -/
lemma loopOver_cons (s : String) (h : AudioHandle) (k : String)
    (ks : List String) (m : Meta) :
    loopOver s h (k :: ks) m =
      match decodeKey s h k with
      | .error e => .error e
      | .ok r => loopOver s h ks (applyUpdates m r) := rfl

/-- Splitting the read loop across an append of key lists. -/
lemma loopOver_append (s : String) (h : AudioHandle) (k1 k2 : List String)
    (m : Meta) :
    loopOver s h (k1 ++ k2) m =
      match loopOver s h k1 m with
      | .error e => .error e
      | .ok m1 => loopOver s h k2 m1 := by
  induction k1 generalizing m with
  | nil => rfl
  | cons k ks ih =>
    rw [List.cons_append, loopOver_cons, loopOver_cons]
    cases decodeKey s h k with
    | error e => rfl
    | ok r => exact ih _

/-- If the read loop over some keys succeeds and a field is not an allowed
output field of any of them, the field keeps its initial value.  The
`hfields` hypothesis is the per-format field-scope lemma for the suffix. -/
lemma loopOver_ok_lookup (s : String) (h : AudioHandle) (keys : List String)
    (m0 m : Meta) (fld : String)
    (hok : loopOver s h keys m0 = .ok m)
    (hno : ∀ k ∈ keys, fld ∉ allowedFields s k)
    (hfields : ∀ k ∈ keys, ∀ r, decodeKey s h k = .ok r →
      ∀ f ∈ r.map Prod.fst, f ∈ allowedFields s k) :
    m.lookup fld = m0.lookup fld := by
  induction keys generalizing m0 with
  | nil => cases hok; rfl
  | cons k ks ih =>
    rw [loopOver_cons] at hok
    cases hd : decodeKey s h k with
    | error e => rw [hd] at hok; cases hok
    | ok r =>
      rw [hd] at hok
      have h1 := ih (applyUpdates m0 r) hok
        (fun k2 hk2 => hno k2 (by simp [hk2]))
        (fun k2 hk2 => hfields k2 (by simp [hk2]))
      rw [h1]
      apply lookup_applyUpdates_not_mem
      intro hmem
      exact hno k (by simp) (hfields k (by simp) r hd fld hmem)

/-- If the read loop succeeds, the decode of every processed key succeeded. -/
lemma loopOver_ok_decode (s : String) (h : AudioHandle) (keys : List String)
    (m0 m : Meta) (hok : loopOver s h keys m0 = .ok m) :
    ∀ k ∈ keys, ∃ r, decodeKey s h k = .ok r := by
  induction keys generalizing m0 with
  | nil => intro k hk; simp at hk
  | cons k ks ih =>
    rw [loopOver_cons] at hok
    cases hd : decodeKey s h k with
    | error e => rw [hd] at hok; cases hok
    | ok r =>
      rw [hd] at hok
      intro k2 hk2
      rcases List.mem_cons.1 hk2 with h2 | h2
      · exact ⟨r, h2 ▸ hd⟩
      · exact ih (applyUpdates m0 r) hok k2 h2

/-- The artist post-processing step only adds the `"artist"` field. -/
lemma artistPost_lookup_ne (m m2 : Meta) (fld : String) (hfld : fld ≠ "artist")
    (hok : artistPost m = .ok m2) : m2.lookup fld = m.lookup fld := by
  unfold artistPost at hok
  split at hok
  · cases hok
  · cases hok
  · cases hok
    exact lookup_cons_ne _ _ _ _ hfld
  · split at hok
    · cases hok
    · cases hok
      exact lookup_cons_ne _ _ _ _ hfld
  · cases hok
  · cases hok

/-! ### Round-trip helpers -/

/-- Write a song into a freshly loaded empty handle at `p`, then read the
same handle back.  (A successfully loaded handle never makes the write path
fail, so the `.noneRes` arm is unreachable; it makes any lookup fact about
the result imply that both phases succeeded.) -/
def writeRead (p : PyPath) (song : Song) : ReadResult :=
  match embed_metadata p (some { tags := [], pictures := [] }) song with
  | .error _ => .noneRes
  | .ok h => get_file_metadata p (some h)

/-- A read produced a mapping and the mapping has the given values at the
given fields. -/
def readOkLookups (r : ReadResult) (pairs : List (String × Option MetaValue)) : Prop :=
  match r with
  | .ok m => ∀ pr ∈ pairs, m.lookup pr.1 = pr.2
  | _ => False

/-- Python `s[0]` on a one-character string is the string itself. -/
lemma pyTake_length_one (s : String) (h : s.length = 1) : pyTake s 1 = s := by
  show String.mk (s.data.take 1) = s
  have h2 : s.data.length = 1 := h
  rw [← h2, List.take_length]

/-- The branch `val.text[0] if len(val.text) == 1 else val.text` on a `USLT`
frame, whose `text` is a plain string, always returns that string. -/
lemma uslt_unwrap (s : String) : (if s.data.length = 1 then pyTake s 1 else s) = s := by
  split
  · rename_i h
    show String.mk (s.data.take 1) = s
    rw [← h, List.take_length]
  · rfl

/-- Reading back the `rtng` sentinel written for a boolean recovers it. -/
lemma explicit_decode_val (e : Bool) :
    decide (([if e = true then (4 : Nat) else 2] : List Nat) = [4]) = e := by
  cases e <;> simp

lemma pyDrop_flac : pyDrop ".flac" 1 = "flac" := by decide

lemma pyDrop_ogg : pyDrop ".ogg" 1 = "ogg" := by decide

lemma pyDrop_opus : pyDrop ".opus" 1 = "opus" := by decide

lemma pyDrop_m4a : pyDrop ".m4a" 1 = "m4a" := by decide

lemma pyDrop_mp3 : pyDrop ".mp3" 1 = "mp3" := by decide

/-- Round trip for the generic formats, for a song with all optional fields
present, at least two artists and genres, and a date starting with four
digits: the mapping reproduces title, artist list, album, genres, copyright,
URL, lyrics and track number, while the track count is absent and the disc
number is stored under the disc-count field (the disc-number field is
absent). -/
lemma writeRead_generic_facts (p : PyPath)
    (hp : p = ⟨".flac", true⟩ ∨ p = ⟨".ogg", true⟩ ∨ p = ⟨".opus", true⟩)
    (song : Song) (a b g1 g2 : String) (ar gr : List String)
    (h1 : song.artists = a :: b :: ar)
    (h2 : song.genres = g1 :: g2 :: gr)
    (h3 : song.album_name ≠ "")
    (h4 : song.copyright_text ≠ "")
    (h5 : song.lyrics ≠ "")
    (h6 : song.download_url ≠ "")
    (h7 : isNatStr (pyTake song.date 4) = true) :
    readOkLookups (writeRead p song)
      [("name", some (.s song.name)),
       ("artists", some (.sl song.artists)),
       ("artist", some (.s a)),
       ("album_name", some (.s song.album_name)),
       ("genres", some (.sl song.genres)),
       ("copyright_text", some (.s song.copyright_text)),
       ("lyrics", some (.s song.lyrics)),
       ("url", some (.s song.url)),
       ("track_number", some (.i song.track_number)),
       ("tracks_count", none),
       ("disc_count", some (.i song.disc_number)),
       ("disc_number", none)] := by
  rcases hp with rfl | rfl | rfl <;>
    simp [writeRead, embed_metadata, get_file_metadata, readLoop, loopOver,
      decodeKey, hget, hset, hsetIf, frameAdd, frameAddIf, tset, encodeVal, easyText, pk,
      M4A_TAG_PRESET, MP3_TAG_PRESET, TAG_PRESET, TAG_TO_SONG, EASYID3_KEY,
      PRESET_KEYS, applyUpdates, artistPost, unwrap, readOkLookups,
      List.lookup, pyInt, Except.map, isNatStr_zfill_repr, digitsToNat_zfill_repr,
      pyDrop_flac, pyDrop_ogg, pyDrop_opus, h1, h2, h3, h4, h5, h6, h7]

/-- Round trip for m4a, under the same song-shape hypotheses: everything in
the generic list plus both number/count pairs and the explicit flag. -/
lemma writeRead_m4a_facts (song : Song) (a b g1 g2 : String) (ar gr : List String)
    (h1 : song.artists = a :: b :: ar)
    (h2 : song.genres = g1 :: g2 :: gr)
    (h3 : song.album_name ≠ "")
    (h4 : song.copyright_text ≠ "")
    (h5 : song.lyrics ≠ "")
    (h6 : song.download_url ≠ "")
    (h7 : isNatStr (pyTake song.date 4) = true) :
    readOkLookups (writeRead ⟨".m4a", true⟩ song)
      [("name", some (.s song.name)),
       ("artists", some (.sl song.artists)),
       ("artist", some (.s a)),
       ("album_name", some (.s song.album_name)),
       ("genres", some (.sl song.genres)),
       ("copyright_text", some (.s song.copyright_text)),
       ("lyrics", some (.s song.lyrics)),
       ("url", some (.s song.url)),
       ("track_number", some (.i song.track_number)),
       ("tracks_count", some (.i song.tracks_count)),
       ("disc_number", some (.i song.disc_number)),
       ("disc_count", some (.i song.disc_count)),
       ("explicit", some (.b song.explicit))] := by
  simp [writeRead, embed_metadata, get_file_metadata, readLoop, loopOver,
    decodeKey, hget, hset, hsetIf, frameAdd, frameAddIf, tset, encodeVal, easyText, pk,
    M4A_TAG_PRESET, MP3_TAG_PRESET, TAG_PRESET, TAG_TO_SONG, EASYID3_KEY,
    PRESET_KEYS, applyUpdates, artistPost, unwrap, readOkLookups,
    List.lookup, pyInt, Except.map, isNatStr_zfill_repr, digitsToNat_zfill_repr,
    explicit_decode_val, pyDrop_m4a, h1, h2, h3, h4, h5, h6, h7]

/-- Round trip for MP3, under the same song-shape hypotheses: the mapping
reproduces title, artist list, album, genres, copyright, and via the
two-phase frame additions the URL and the lyrics; the `"{n}/{c}"` strings
give back both numbers and counts. -/
lemma writeRead_mp3_facts (song : Song) (a b g1 g2 : String) (ar gr : List String)
    (h1 : song.artists = a :: b :: ar)
    (h2 : song.genres = g1 :: g2 :: gr)
    (h3 : song.album_name ≠ "")
    (h4 : song.copyright_text ≠ "")
    (h5 : song.lyrics ≠ "")
    (h6 : song.download_url ≠ "")
    (h7 : isNatStr (pyTake song.date 4) = true) :
    readOkLookups (writeRead ⟨".mp3", true⟩ song)
      [("name", some (.s song.name)),
       ("artists", some (.sl song.artists)),
       ("artist", some (.s a)),
       ("album_name", some (.s song.album_name)),
       ("genres", some (.sl song.genres)),
       ("copyright_text", some (.s song.copyright_text)),
       ("lyrics", some (.s song.lyrics)),
       ("url", some (.s song.url)),
       ("track_number", some (.i song.track_number)),
       ("tracks_count", some (.i song.tracks_count)),
       ("disc_number", some (.i song.disc_number)),
       ("disc_count", some (.i song.disc_count))] := by
  simp [writeRead, embed_metadata, get_file_metadata, readLoop, loopOver,
    decodeKey, hget, hset, hsetIf, frameAdd, frameAddIf, tset, encodeVal, easyText, pk,
    M4A_TAG_PRESET, MP3_TAG_PRESET, TAG_PRESET, TAG_TO_SONG, EASYID3_KEY,
    PRESET_KEYS, applyUpdates, artistPost, unwrap, readOkLookups,
    List.lookup, pyInt, Except.map, Except.bind, isNatStr_repr,
    digitsToNat_repr, pySplit_slash_repr, uslt_unwrap,
    pyDrop_mp3, h1, h2, h3, h4, h5, h6, h7]
  intro h8
  exact pyTake_length_one _ h8

/-- The MP3 two-phase finalize leaves the URL, lyrics and comment frames on
the handle, readable under their ID3 hash keys. -/
lemma mp3_frames_present (song : Song)
    (h5 : song.lyrics ≠ "") (h6 : song.download_url ≠ "") :
    ∃ h, embed_metadata ⟨".mp3", true⟩ (some { tags := [], pictures := [] }) song = .ok h ∧
      h.tags.lookup "WOAS" = some (.vframe (.url song.url)) ∧
      h.tags.lookup "USLT::XXX" = some (.vframe (.uslt song.lyrics)) ∧
      h.tags.lookup "COMM::XXX" = some (.vframe (.comm [song.download_url])) := by
  refine ⟨_, rfl, ?_, ?_, ?_⟩ <;>
    simp [embed_metadata, hset, hsetIf, frameAdd, frameAddIf, tset, encodeVal,
      easyText, pk, M4A_TAG_PRESET, MP3_TAG_PRESET, TAG_PRESET, EASYID3_KEY,
      List.lookup, pyDrop_mp3, h5, h6]

/-! ### Sample inputs for witnesses and counterexamples -/

/-- A concrete song with every optional field present, two artists and two
genres, disc 3 of 12, track 7 of 9. -/
def sampleSong : Song :=
  { name := "Name", artists := ["A1", "A2"], artist := "A1",
    album_name := "Album", date := "2021-05-01", publisher := "Pub",
    genres := ["g1", "g2"], copyright_text := "Copy", lyrics := "La",
    download_url := "https://dl", url := "https://song",
    cover_url := "https://cover", disc_number := 3, disc_count := 12,
    track_number := 7, tracks_count := 9, explicit := true }

/-! ### Claim C4 -/

/-- C4: for every generic-format (flac/ogg/opus) write, the disc number and
track number are stored as decimal strings zero-padded to the width of the
decimal representation of the disc count and track count respectively; disc
3 of 12 is stored as `"03"` and disc 3 of 120 as `"003"`. -/
theorem C4_generic_zero_padding :
    (∀ (song : Song) (h0 : AudioHandle), ∃ h1,
      embed_metadata ⟨".flac", true⟩ (some h0) song = .ok h1 ∧
      h1.tags.lookup "discnumber" =
        some (.vstrs [pyZfill (Nat.repr song.disc_number) (pyLen (Nat.repr song.disc_count))]) ∧
      h1.tags.lookup "tracknumber" =
        some (.vstrs [pyZfill (Nat.repr song.track_number) (pyLen (Nat.repr song.tracks_count))])) ∧
    (∀ (song : Song) (h0 : AudioHandle), ∃ h1,
      embed_metadata ⟨".ogg", true⟩ (some h0) song = .ok h1 ∧
      h1.tags.lookup "discnumber" =
        some (.vstrs [pyZfill (Nat.repr song.disc_number) (pyLen (Nat.repr song.disc_count))]) ∧
      h1.tags.lookup "tracknumber" =
        some (.vstrs [pyZfill (Nat.repr song.track_number) (pyLen (Nat.repr song.tracks_count))])) ∧
    (∀ (song : Song) (h0 : AudioHandle), ∃ h1,
      embed_metadata ⟨".opus", true⟩ (some h0) song = .ok h1 ∧
      h1.tags.lookup "discnumber" =
        some (.vstrs [pyZfill (Nat.repr song.disc_number) (pyLen (Nat.repr song.disc_count))]) ∧
      h1.tags.lookup "tracknumber" =
        some (.vstrs [pyZfill (Nat.repr song.track_number) (pyLen (Nat.repr song.tracks_count))])) ∧
    pyZfill (Nat.repr 3) (pyLen (Nat.repr 12)) = "03" ∧
    pyZfill (Nat.repr 3) (pyLen (Nat.repr 120)) = "003" := by
  refine ⟨?_, ?_, ?_, by decide, by decide⟩ <;>
    (intro song h0
     refine ⟨_, rfl, ?_, ?_⟩ <;>
       simp [hset, tset, encodeVal, pk, M4A_TAG_PRESET, TAG_PRESET, List.lookup,
         pyDrop_flac, pyDrop_ogg, pyDrop_opus])

/-! ### Claim C6 -/

/-- C6 counterexample: the claim says `explicit` has no mapping at all in
the generic table, but `TAG_PRESET` (a key-to-itself copy of the M4A table)
maps it to `"explicit"`. -/
theorem C6_cex : TAG_PRESET.lookup "explicit" = some "explicit" := by decide

/-- C6 (amended): the three preset tables encode the claimed canonical-to-
native mappings, except that the generic table does map `explicit` (to
itself, like every key). -/
theorem C6_tag_tables :
    MP3_TAG_PRESET.lookup "title" = some "TIT2" ∧
    M4A_TAG_PRESET.lookup "title" = some "©nam" ∧
    TAG_PRESET.lookup "title" = some "title" ∧
    MP3_TAG_PRESET.lookup "artist" = some "TPE1" ∧
    M4A_TAG_PRESET.lookup "artist" = some "©ART" ∧
    TAG_PRESET.lookup "artist" = some "artist" ∧
    MP3_TAG_PRESET.lookup "tracknumber" = some "TRCK" ∧
    M4A_TAG_PRESET.lookup "tracknumber" = some "trkn" ∧
    TAG_PRESET.lookup "tracknumber" = some "tracknumber" ∧
    MP3_TAG_PRESET.lookup "woas" = some "WOAS" ∧
    M4A_TAG_PRESET.lookup "woas" = some "----:spotdl:WOAS" ∧
    TAG_PRESET.lookup "woas" = some "woas" ∧
    MP3_TAG_PRESET.lookup "lyrics" = some "USLT::XXX" ∧
    M4A_TAG_PRESET.lookup "lyrics" = some "©lyr" ∧
    TAG_PRESET.lookup "lyrics" = some "lyrics" ∧
    MP3_TAG_PRESET.lookup "comment" = some "COMM::XXX" ∧
    M4A_TAG_PRESET.lookup "comment" = some "©cmt" ∧
    TAG_PRESET.lookup "comment" = some "comment" ∧
    MP3_TAG_PRESET.lookup "explicit" = some "NULL" ∧
    M4A_TAG_PRESET.lookup "explicit" = some "rtng" ∧
    TAG_PRESET.lookup "explicit" = some "explicit" := by
  decide

/-! ### Claim C7 -/

/-- C7: for every handle, song, format and fetch outcome, the Cover Embedder
returns the handle unchanged whenever the cover URL is absent or the fetch
of it failed; a fetch failure is swallowed, never propagated. -/
theorem C7_embed_cover_noop :
    ∀ (audio_file : AudioHandle) (song : Song) (encoding : String)
      (fetched : Option (List Nat)),
      song.cover_url = "" ∨ fetched = none →
      embed_cover audio_file song encoding fetched = audio_file := by
  intro af song enc fetched h
  rcases h with h | h
  · simp [embed_cover, h]
  · subst h
    simp [embed_cover]

/-- C7 witness: a concrete no-op cover embed (present URL, failed fetch). -/
theorem C7_embed_cover_noop_witness :
    embed_cover { tags := [], pictures := [] } sampleSong "flac" none =
      { tags := [], pictures := [] } :=
  C7_embed_cover_noop { tags := [], pictures := [] } sampleSong "flac" none (Or.inr rfl)

/-! ### Claim C8 -/

/-- C8: a failed or unrecognized load makes the write path raise
`MetadataError` before any tag mutation; the read path raises an `OSError`
when the backing path does not exist (before any handle access), and returns
none both for an unrecognized handle and for an empty tag set. -/
theorem C8_load_errors :
    (∀ (p : PyPath) (song : Song),
      embed_metadata p none song = .error .unableToLoad) ∧
    (∀ (p : PyPath) (loaded : Option AudioHandle), p.pathExists = false →
      get_file_metadata p loaded = .oserror) ∧
    (∀ p : PyPath, p.pathExists = true → get_file_metadata p none = .noneRes) ∧
    (∀ (p : PyPath) (h : AudioHandle), p.pathExists = true → h.tags = [] →
      get_file_metadata p (some h) = .noneRes) := by
  refine ⟨fun p song => rfl, ?_, ?_, ?_⟩
  · intro p loaded hp
    simp [get_file_metadata, hp]
  · intro p hp
    simp [get_file_metadata, hp]
  · intro p h hp ht
    simp [get_file_metadata, hp, ht, List.isEmpty]

/-- C8 witness: the four cases at concrete inputs. -/
theorem C8_load_errors_witness :
    embed_metadata ⟨".mp3", true⟩ none sampleSong = .error .unableToLoad ∧
    get_file_metadata ⟨".mp3", false⟩ none = .oserror ∧
    get_file_metadata ⟨".mp3", true⟩ none = .noneRes ∧
    get_file_metadata ⟨".flac", true⟩ (some { tags := [], pictures := [] }) = .noneRes :=
  ⟨C8_load_errors.1 ⟨".mp3", true⟩ sampleSong,
   C8_load_errors.2.1 ⟨".mp3", false⟩ none rfl,
   C8_load_errors.2.2.1 ⟨".mp3", true⟩ rfl,
   C8_load_errors.2.2.2 ⟨".flac", true⟩ { tags := [], pictures := [] } rfl rfl⟩

/-! ### Claim C10 -/

/-- Looking up a different field after `hset` is unchanged (the easy-MP3 view
maps the key through the `EasyID3` table first). -/
lemma lookup_hset_ne (e : String) (af : AudioHandle) (k : String) (v : PyVal)
    (fld : String) (h1 : fld ≠ k) (h2 : fld ≠ pk EASYID3_KEY k) :
    (hset e af k v).tags.lookup fld = af.tags.lookup fld := by
  unfold hset
  split
  · exact lookup_cons_ne _ _ _ _ h2
  · exact lookup_cons_ne _ _ _ _ h1

/-- Looking up a different field after a conditional assignment is
unchanged. -/
lemma lookup_hsetIf_ne (c : Prop) [Decidable c] (e : String) (af : AudioHandle)
    (k : String) (v : PyVal) (fld : String) (h1 : fld ≠ k)
    (h2 : fld ≠ pk EASYID3_KEY k) :
    (hsetIf c e af k v).tags.lookup fld = af.tags.lookup fld := by
  unfold hsetIf
  split
  · exact lookup_hset_ne e af k v fld h1 h2
  · rfl

/-- Looking up a different field after `ID3.add` is unchanged. -/
lemma lookup_frameAdd_ne (af : AudioHandle) (k : String) (f : Frame)
    (fld : String) (h : fld ≠ k) :
    (frameAdd af k f).tags.lookup fld = af.tags.lookup fld :=
  lookup_cons_ne _ _ _ _ h

/-- Looking up a different field after a conditional `ID3.add` is
unchanged. -/
lemma lookup_frameAddIf_ne (c : Prop) [Decidable c] (af : AudioHandle)
    (k : String) (f : Frame) (fld : String) (h : fld ≠ k) :
    (frameAddIf c af k f).tags.lookup fld = af.tags.lookup fld := by
  unfold frameAddIf
  split
  · exact lookup_frameAdd_ne af k f fld h
  · rfl

/-- None of the write helpers touches the picture blocks. -/
lemma hset_pictures (e : String) (af : AudioHandle) (k : String) (v : PyVal) :
    (hset e af k v).pictures = af.pictures := by
  unfold hset
  split <;> rfl

lemma hsetIf_pictures (c : Prop) [Decidable c] (e : String) (af : AudioHandle)
    (k : String) (v : PyVal) : (hsetIf c e af k v).pictures = af.pictures := by
  unfold hsetIf
  split
  · exact hset_pictures e af k v
  · rfl

lemma frameAdd_pictures (af : AudioHandle) (k : String) (f : Frame) :
    (frameAdd af k f).pictures = af.pictures := rfl

lemma frameAddIf_pictures (c : Prop) [Decidable c] (af : AudioHandle) (k : String)
    (f : Frame) : (frameAddIf c af k f).pictures = af.pictures := by
  unfold frameAddIf
  split <;> rfl

/-- C10: `embed_metadata` never writes the album-art carrier of any format:
the FLAC picture blocks, the m4a `covr` atom, the MP3 `APIC` frame and the
ogg/opus `metadata_block_picture` comment are all exactly as they were
before the call (the cover-embedding call in the write path is commented
out). -/
theorem C10_embed_no_cover_write :
    ∀ (p : PyPath) (h0 : AudioHandle) (song : Song), ∃ h1,
      embed_metadata p (some h0) song = .ok h1 ∧
      h1.pictures = h0.pictures ∧
      h1.tags.lookup "covr" = h0.tags.lookup "covr" ∧
      h1.tags.lookup "APIC" = h0.tags.lookup "APIC" ∧
      h1.tags.lookup "metadata_block_picture" = h0.tags.lookup "metadata_block_picture" := by
  intro p h0 song
  refine ⟨_, rfl, ?_⟩
  generalize pyDrop p.suffix 1 = enc
  by_cases e1 : enc = "m4a"
  · subst e1
    simp [lookup_hset_ne, lookup_hsetIf_ne, lookup_frameAdd_ne, lookup_frameAddIf_ne,
      hset_pictures, hsetIf_pictures, frameAdd_pictures, frameAddIf_pictures,
      pk, M4A_TAG_PRESET, TAG_PRESET, EASYID3_KEY, List.lookup]
  · by_cases e2 : enc = "mp3"
    · subst e2
      simp [lookup_hset_ne, lookup_hsetIf_ne, lookup_frameAdd_ne, lookup_frameAddIf_ne,
        hset_pictures, hsetIf_pictures, frameAdd_pictures, frameAddIf_pictures,
        pk, M4A_TAG_PRESET, TAG_PRESET, EASYID3_KEY, List.lookup]
    · by_cases e3 : enc = "flac"
      · subst e3
        simp [lookup_hset_ne, lookup_hsetIf_ne, lookup_frameAdd_ne, lookup_frameAddIf_ne,
          hset_pictures, hsetIf_pictures, frameAdd_pictures, frameAddIf_pictures,
          pk, M4A_TAG_PRESET, TAG_PRESET, EASYID3_KEY, List.lookup]
      · by_cases e4 : enc = "ogg"
        · subst e4
          simp [lookup_hset_ne, lookup_hsetIf_ne, lookup_frameAdd_ne, lookup_frameAddIf_ne,
            hset_pictures, hsetIf_pictures, frameAdd_pictures, frameAddIf_pictures,
            pk, M4A_TAG_PRESET, TAG_PRESET, EASYID3_KEY, List.lookup]
        · by_cases e5 : enc = "opus"
          · subst e5
            simp [lookup_hset_ne, lookup_hsetIf_ne, lookup_frameAdd_ne, lookup_frameAddIf_ne,
              hset_pictures, hsetIf_pictures, frameAdd_pictures, frameAddIf_pictures,
              pk, M4A_TAG_PRESET, TAG_PRESET, EASYID3_KEY, List.lookup]
          · simp [lookup_hset_ne, lookup_hsetIf_ne, lookup_frameAdd_ne, lookup_frameAddIf_ne,
              hset_pictures, hsetIf_pictures, frameAdd_pictures, frameAddIf_pictures,
              pk, M4A_TAG_PRESET, TAG_PRESET, EASYID3_KEY, List.lookup, e1, e2, e3, e4, e5]

/-! ### Decomposing a successful read at one pivot key -/

/-- A successful read decomposes into the loop before a pivot key, the decode
of the pivot, the loop after it, and the artist post-processing. -/
lemma read_ok_structure (sfx : String) (h : AudioHandle) (m : Meta)
    (PRE POST : List String) (pivot : String)
    (hkeys : PRESET_KEYS = PRE ++ pivot :: POST)
    (hread : get_file_metadata ⟨sfx, true⟩ (some h) = .ok m) :
    ∃ mPre r m1, loopOver sfx h PRE [] = .ok mPre ∧
      decodeKey sfx h pivot = .ok r ∧
      loopOver sfx h POST (applyUpdates mPre r) = .ok m1 ∧
      artistPost m1 = .ok m := by
  unfold get_file_metadata at hread
  simp only [Bool.true_eq_false, if_false, ite_false, reduceIte] at hread
  cases hemp : h.tags.isEmpty
  case true =>
    rw [hemp] at hread
    simp at hread
  case false =>
    rw [hemp] at hread
    simp only [if_false, ite_false, Bool.false_eq_true, reduceIte] at hread
    unfold readLoop at hread
    rw [hkeys, loopOver_append] at hread
    cases hpre : loopOver sfx h PRE [] <;> rw [hpre] at hread
    case error e => simp at hread
    case ok mPre =>
      simp only [] at hread
      rw [loopOver_cons] at hread
      cases hdec : decodeKey sfx h pivot <;> rw [hdec] at hread
      case error e => simp at hread
      case ok r =>
        simp only [] at hread
        cases hloop2 : loopOver sfx h POST (applyUpdates mPre r) <;>
          rw [hloop2] at hread
        case error e => simp at hread
        case ok m1 =>
          simp only [] at hread
          cases hart : artistPost m1 <;> rw [hart] at hread
          case error e => simp at hread
          case ok m2 =>
            simp only [] at hread
            cases hread
            exact ⟨mPre, r, m1, rfl, rfl, hloop2, hart⟩

/-- Away from ".mp3" and ".m4a" the allowed output fields are the generic
ones (the same as for ".flac"). -/
lemma allowedFields_generic (sfx : String) (hs1 : sfx ≠ ".m4a")
    (hs2 : sfx ≠ ".mp3") (k : String) :
    allowedFields sfx k = allowedFields ".flac" k := by
  unfold allowedFields
  rw [if_neg hs2, if_neg hs1,
    if_neg (by decide : ¬((".flac" : String) = ".mp3")),
    if_neg (by decide : ¬((".flac" : String) = ".m4a"))]

/-! ### Claim C2 -/

/-- C2: for every generic-format handle whose native `discnumber` field is
present (a non-empty list of strings, the vorbis value shape), a successful
read decodes its first entry as an integer stored under the `disc_count`
output field, and the `disc_number` output field is never populated. -/
theorem C2_generic_discnumber_to_disc_count :
    ∀ (sfx : String), sfx = ".flac" ∨ sfx = ".ogg" ∨ sfx = ".opus" →
    ∀ (h : AudioHandle) (d : String) (rest : List String) (m : Meta),
      h.tags.lookup "discnumber" = some (.vstrs (d :: rest)) →
      get_file_metadata ⟨sfx, true⟩ (some h) = .ok m →
      m.lookup "disc_count" = some (.i (digitsToNat d)) ∧
      m.lookup "disc_number" = none := by
  intro sfx hs h d rest m hd hread
  have hs1 : sfx ≠ ".m4a" := by rcases hs with rfl | rfl | rfl <;> decide
  have hs2 : sfx ≠ ".mp3" := by rcases hs with rfl | rfl | rfl <;> decide
  obtain ⟨mPre, r, m1, hpre, hdec, hpost, hart⟩ :=
    read_ok_structure sfx h m
      ["album", "artist", "date", "title", "year", "originaldate", "comment",
       "group", "writer", "genre", "tracknumber", "albumartist"]
      ["cpil", "albumart", "encodedby", "copyright", "tempo", "lyrics",
       "explicit", "woas"]
      "discnumber" (by decide) hread
  have hget_eq : hget sfx h "discnumber" = some (.vstrs (d :: rest)) := by
    simp [hget, hs1, hs2, hd]
  unfold decodeKey at hdec
  rw [hget_eq] at hdec
  simp only [if_neg hs2, if_neg hs1, String.reduceEq, reduceIte] at hdec
  obtain ⟨n, hpy, hrn⟩ := except_map_ok hdec
  have hn : n = digitsToNat d := by
    unfold pyInt at hpy
    split at hpy
    · cases hpy; rfl
    · cases hpy
  subst hn
  subst hrn
  have hfields : ∀ k, ∀ r2, decodeKey sfx h k = .ok r2 →
      ∀ f ∈ r2.map Prod.fst, f ∈ allowedFields sfx k :=
    fun k r2 h2 => decodeKey_fields_generic sfx k h hs1 hs2 r2 h2
  have hflac : ∀ fld k, fld ∉ allowedFields ".flac" k → fld ∉ allowedFields sfx k := by
    intro fld k hnot
    rw [allowedFields_generic sfx hs1 hs2 k]
    exact hnot
  have hpostDC : ∀ k ∈ ["cpil", "albumart", "encodedby", "copyright", "tempo",
      "lyrics", "explicit", "woas"], "disc_count" ∉ allowedFields ".flac" k := by
    decide
  have hpostDN : ∀ k ∈ ["cpil", "albumart", "encodedby", "copyright", "tempo",
      "lyrics", "explicit", "woas"], "disc_number" ∉ allowedFields ".flac" k := by
    decide
  have hpreDN : ∀ k ∈ ["album", "artist", "date", "title", "year", "originaldate",
      "comment", "group", "writer", "genre", "tracknumber", "albumartist"],
      "disc_number" ∉ allowedFields ".flac" k := by
    decide
  constructor
  · rw [artistPost_lookup_ne m1 m "disc_count" (by decide) hart,
      loopOver_ok_lookup sfx h _ _ m1 "disc_count" hpost
        (fun k hk => hflac _ k (hpostDC k hk))
        (fun k _ => hfields k)]
    rfl
  · rw [artistPost_lookup_ne m1 m "disc_number" (by decide) hart,
      loopOver_ok_lookup sfx h _ _ m1 "disc_number" hpost
        (fun k hk => hflac _ k (hpostDN k hk))
        (fun k _ => hfields k)]
    show List.lookup "disc_number" (("disc_count", MetaValue.i (digitsToNat d)) :: mPre) = none
    rw [lookup_cons_ne _ _ _ _ (by decide),
      loopOver_ok_lookup sfx h _ _ mPre "disc_number" hpre
        (fun k hk => hflac _ k (hpreDN k hk))
        (fun k _ => hfields k)]
    rfl

/-- C2 witness: a concrete FLAC handle with `discnumber = ["7"]` reads back
with `disc_count = 7` and no `disc_number`. -/
theorem C2_generic_discnumber_witness :
    readOkLookups
      (get_file_metadata ⟨".flac", true⟩
        (some { tags := [("discnumber", .vstrs ["7"]), ("artist", .vstrs ["A", "B"])],
                pictures := [] }))
      [("disc_count", some (.i 7)), ("disc_number", none)] := by
  obtain ⟨m, hm⟩ : ∃ m, get_file_metadata ⟨".flac", true⟩
      (some { tags := [("discnumber", .vstrs ["7"]), ("artist", .vstrs ["A", "B"])],
              pictures := [] }) = .ok m := ⟨_, rfl⟩
  have h2 := C2_generic_discnumber_to_disc_count ".flac" (Or.inl rfl)
    { tags := [("discnumber", .vstrs ["7"]), ("artist", .vstrs ["A", "B"])],
      pictures := [] } "7" [] m rfl hm
  rw [hm]
  intro pr hpr
  simp only [List.mem_cons, List.mem_singleton] at hpr
  rcases hpr with rfl | rfl | h
  · exact h2.1
  · exact h2.2
  · simp at h

/-! ### Claim C5 -/

/-- C5: for every MP3 handle whose track-number (or disc-number) text is
present, the Reader splits it on `"/"`: exactly two parts store both the
number and the count as integers; with no slash the raw value is stored
under the number field alone and the count field is left unset in the
returned mapping. -/
theorem C5_mp3_track_disc_split :
    (∀ (h : AudioHandle) (t : String) (ts : List String) (m : Meta),
      h.tags.lookup "TRCK" = some (.vframe (.text (t :: ts))) →
      get_file_metadata ⟨".mp3", true⟩ (some h) = .ok m →
      (∀ a b, pySplit t '/' = [a, b] →
        m.lookup "track_number" = some (.i (digitsToNat a)) ∧
        m.lookup "tracks_count" = some (.i (digitsToNat b))) ∧
      ('/' ∉ t.data →
        m.lookup "track_number" = some (.s t) ∧
        m.lookup "tracks_count" = none)) ∧
    (∀ (h : AudioHandle) (t : String) (ts : List String) (m : Meta),
      h.tags.lookup "TPOS" = some (.vframe (.text (t :: ts))) →
      get_file_metadata ⟨".mp3", true⟩ (some h) = .ok m →
      (∀ a b, pySplit t '/' = [a, b] →
        m.lookup "disc_number" = some (.i (digitsToNat a)) ∧
        m.lookup "disc_count" = some (.i (digitsToNat b))) ∧
      ('/' ∉ t.data →
        m.lookup "disc_number" = some (.s t) ∧
        m.lookup "disc_count" = none)) := by
  constructor
  · intro h t ts m hd hread
    obtain ⟨mPre, r, m1, hpre, hdec, hpost, hart⟩ :=
      read_ok_structure ".mp3" h m
        ["album", "artist", "date", "title", "year", "originaldate", "comment",
         "group", "writer", "genre"]
        ["albumartist", "discnumber", "cpil", "albumart", "encodedby",
         "copyright", "tempo", "lyrics", "explicit", "woas"]
        "tracknumber" (by decide) hread
    have hg : hget ".mp3" h "tracknumber" = some (.vframe (.text (t :: ts))) := by
      simp [hget, pk, MP3_TAG_PRESET, List.lookup, hd]
    unfold decodeKey at hdec
    rw [hg] at hdec
    simp only [String.reduceEq, reduceIte] at hdec
    have hfields : ∀ k, ∀ r2, decodeKey ".mp3" h k = .ok r2 →
        ∀ f ∈ r2.map Prod.fst, f ∈ allowedFields ".mp3" k :=
      fun k r2 hr2 => decodeKey_fields_mp3 k h r2 hr2
    have hpostTN : ∀ k ∈ ["albumartist", "discnumber", "cpil", "albumart",
        "encodedby", "copyright", "tempo", "lyrics", "explicit", "woas"],
        "track_number" ∉ allowedFields ".mp3" k := by decide
    have hpostTC : ∀ k ∈ ["albumartist", "discnumber", "cpil", "albumart",
        "encodedby", "copyright", "tempo", "lyrics", "explicit", "woas"],
        "tracks_count" ∉ allowedFields ".mp3" k := by decide
    have hpreTC : ∀ k ∈ ["album", "artist", "date", "title", "year",
        "originaldate", "comment", "group", "writer", "genre"],
        "tracks_count" ∉ allowedFields ".mp3" k := by decide
    constructor
    · intro a b hab
      rw [hab] at hdec
      obtain ⟨x, hx, hok2⟩ := except_bind_ok hdec
      obtain ⟨y, hy, hr⟩ := except_map_ok hok2
      have hxv : x = digitsToNat a := by
        unfold pyInt at hx
        split at hx
        · cases hx; rfl
        · cases hx
      have hyv : y = digitsToNat b := by
        unfold pyInt at hy
        split at hy
        · cases hy; rfl
        · cases hy
      subst hxv; subst hyv; subst hr
      constructor
      · rw [artistPost_lookup_ne m1 m "track_number" (by decide) hart,
          loopOver_ok_lookup ".mp3" h _ _ m1 "track_number" hpost
            hpostTN (fun k _ => hfields k)]
        show List.lookup "track_number"
          (("tracks_count", MetaValue.i (digitsToNat b)) ::
            ("track_number", MetaValue.i (digitsToNat a)) :: mPre) = _
        rw [lookup_cons_ne _ _ _ _ (by decide), lookup_cons_self]
      · rw [artistPost_lookup_ne m1 m "tracks_count" (by decide) hart,
          loopOver_ok_lookup ".mp3" h _ _ m1 "tracks_count" hpost
            hpostTC (fun k _ => hfields k)]
        exact lookup_cons_self _ _ _
    · intro hns
      rw [pySplit_no_sep t '/' hns] at hdec
      simp only [] at hdec
      cases hdec
      constructor
      · rw [artistPost_lookup_ne m1 m "track_number" (by decide) hart,
          loopOver_ok_lookup ".mp3" h _ _ m1 "track_number" hpost
            hpostTN (fun k _ => hfields k)]
        exact lookup_cons_self _ _ _
      · rw [artistPost_lookup_ne m1 m "tracks_count" (by decide) hart,
          loopOver_ok_lookup ".mp3" h _ _ m1 "tracks_count" hpost
            hpostTC (fun k _ => hfields k)]
        show List.lookup "tracks_count" (("track_number", MetaValue.s t) :: mPre) = none
        rw [lookup_cons_ne _ _ _ _ (by decide),
          loopOver_ok_lookup ".mp3" h _ _ mPre "tracks_count" hpre
            hpreTC (fun k _ => hfields k)]
        rfl
  · intro h t ts m hd hread
    obtain ⟨mPre, r, m1, hpre, hdec, hpost, hart⟩ :=
      read_ok_structure ".mp3" h m
        ["album", "artist", "date", "title", "year", "originaldate", "comment",
         "group", "writer", "genre", "tracknumber", "albumartist"]
        ["cpil", "albumart", "encodedby", "copyright", "tempo", "lyrics",
         "explicit", "woas"]
        "discnumber" (by decide) hread
    have hg : hget ".mp3" h "discnumber" = some (.vframe (.text (t :: ts))) := by
      simp [hget, pk, MP3_TAG_PRESET, List.lookup, hd]
    unfold decodeKey at hdec
    rw [hg] at hdec
    simp only [String.reduceEq, reduceIte] at hdec
    have hfields : ∀ k, ∀ r2, decodeKey ".mp3" h k = .ok r2 →
        ∀ f ∈ r2.map Prod.fst, f ∈ allowedFields ".mp3" k :=
      fun k r2 hr2 => decodeKey_fields_mp3 k h r2 hr2
    have hpostDN : ∀ k ∈ ["cpil", "albumart", "encodedby", "copyright", "tempo",
        "lyrics", "explicit", "woas"], "disc_number" ∉ allowedFields ".mp3" k := by
      decide
    have hpostDC : ∀ k ∈ ["cpil", "albumart", "encodedby", "copyright", "tempo",
        "lyrics", "explicit", "woas"], "disc_count" ∉ allowedFields ".mp3" k := by
      decide
    have hpreDC : ∀ k ∈ ["album", "artist", "date", "title", "year",
        "originaldate", "comment", "group", "writer", "genre", "tracknumber",
        "albumartist"], "disc_count" ∉ allowedFields ".mp3" k := by decide
    constructor
    · intro a b hab
      rw [hab] at hdec
      obtain ⟨x, hx, hok2⟩ := except_bind_ok hdec
      obtain ⟨y, hy, hr⟩ := except_map_ok hok2
      have hxv : x = digitsToNat a := by
        unfold pyInt at hx
        split at hx
        · cases hx; rfl
        · cases hx
      have hyv : y = digitsToNat b := by
        unfold pyInt at hy
        split at hy
        · cases hy; rfl
        · cases hy
      subst hxv; subst hyv; subst hr
      constructor
      · rw [artistPost_lookup_ne m1 m "disc_number" (by decide) hart,
          loopOver_ok_lookup ".mp3" h _ _ m1 "disc_number" hpost
            hpostDN (fun k _ => hfields k)]
        show List.lookup "disc_number"
          (("disc_count", MetaValue.i (digitsToNat b)) ::
            ("disc_number", MetaValue.i (digitsToNat a)) :: mPre) = _
        rw [lookup_cons_ne _ _ _ _ (by decide), lookup_cons_self]
      · rw [artistPost_lookup_ne m1 m "disc_count" (by decide) hart,
          loopOver_ok_lookup ".mp3" h _ _ m1 "disc_count" hpost
            hpostDC (fun k _ => hfields k)]
        exact lookup_cons_self _ _ _
    · intro hns
      rw [pySplit_no_sep t '/' hns] at hdec
      simp only [] at hdec
      cases hdec
      constructor
      · rw [artistPost_lookup_ne m1 m "disc_number" (by decide) hart,
          loopOver_ok_lookup ".mp3" h _ _ m1 "disc_number" hpost
            hpostDN (fun k _ => hfields k)]
        exact lookup_cons_self _ _ _
      · rw [artistPost_lookup_ne m1 m "disc_count" (by decide) hart,
          loopOver_ok_lookup ".mp3" h _ _ m1 "disc_count" hpost
            hpostDC (fun k _ => hfields k)]
        show List.lookup "disc_count" (("disc_number", MetaValue.s t) :: mPre) = none
        rw [lookup_cons_ne _ _ _ _ (by decide),
          loopOver_ok_lookup ".mp3" h _ _ mPre "disc_count" hpre
            hpreDC (fun k _ => hfields k)]
        rfl

/-- C5 witness: concrete MP3 handles with `TRCK = "3/12"` and `TRCK = "5"`. -/
theorem C5_mp3_track_disc_split_witness :
    readOkLookups
      (get_file_metadata ⟨".mp3", true⟩
        (some { tags := [("TRCK", .vframe (.text ["3/12"])),
                         ("TPE1", .vframe (.text ["A", "B"]))], pictures := [] }))
      [("track_number", some (.i 3)), ("tracks_count", some (.i 12))] ∧
    readOkLookups
      (get_file_metadata ⟨".mp3", true⟩
        (some { tags := [("TRCK", .vframe (.text ["5"])),
                         ("TPE1", .vframe (.text ["A", "B"]))], pictures := [] }))
      [("track_number", some (.s "5")), ("tracks_count", none)] := by
  constructor
  · obtain ⟨m, hm⟩ : ∃ m, get_file_metadata ⟨".mp3", true⟩
        (some { tags := [("TRCK", .vframe (.text ["3/12"])),
                         ("TPE1", .vframe (.text ["A", "B"]))], pictures := [] }) =
        .ok m := ⟨_, rfl⟩
    have h2 := (C5_mp3_track_disc_split.1
      { tags := [("TRCK", .vframe (.text ["3/12"])),
                 ("TPE1", .vframe (.text ["A", "B"]))], pictures := [] }
      "3/12" [] m rfl hm).1 "3" "12" (by decide)
    rw [hm]
    intro pr hpr
    simp only [List.mem_cons, List.mem_singleton] at hpr
    rcases hpr with rfl | rfl | h
    · exact h2.1
    · exact h2.2
    · simp at h
  · obtain ⟨m, hm⟩ : ∃ m, get_file_metadata ⟨".mp3", true⟩
        (some { tags := [("TRCK", .vframe (.text ["5"])),
                         ("TPE1", .vframe (.text ["A", "B"]))], pictures := [] }) =
        .ok m := ⟨_, rfl⟩
    have h2 := (C5_mp3_track_disc_split.1
      { tags := [("TRCK", .vframe (.text ["5"])),
                 ("TPE1", .vframe (.text ["A", "B"]))], pictures := [] }
      "5" [] m rfl hm).2 (by decide)
    rw [hm]
    intro pr hpr
    simp only [List.mem_cons, List.mem_singleton] at hpr
    rcases hpr with rfl | rfl | h
    · exact h2.1
    · exact h2.2
    · simp at h

/-! ### Claim C3 -/

/-- C3 counterexample: a present but empty `rtng` value reads back as an
explicit `None`, not as `false`, contradicting the claim that any present
value other than `[4]` yields `false`. -/
theorem C3_cex_empty_rtng :
    ∃ m, get_file_metadata ⟨".m4a", true⟩
        (some { tags := [("rtng", .vints []), ("©ART", .vstrs ["A", "B"])],
                pictures := [] }) = .ok m ∧
      m.lookup "explicit" = some MetaValue.null ∧
      ¬ m.lookup "explicit" = some (MetaValue.b false) := by
  refine ⟨_, rfl, rfl, by decide⟩

/-- C3 (amended): the m4a writer stores `(4,)` for an explicit song and
`(2,)` otherwise; the Reader yields `true` exactly for the stored value
`[4]`, `false` for any other non-empty `rtng` value, `None` for a present
but empty one, and leaves the field absent when the tag is unset; the
explicit flag round-trips. -/
theorem C3_m4a_explicit :
    (∀ (song : Song) (h0 : AudioHandle), ∃ h1,
      embed_metadata ⟨".m4a", true⟩ (some h0) song = .ok h1 ∧
      h1.tags.lookup "rtng" =
        some (.vints [if song.explicit = true then 4 else 2])) ∧
    (∀ (h : AudioHandle) (l : List Nat) (m : Meta),
      h.tags.lookup "rtng" = some (.vints l) →
      get_file_metadata ⟨".m4a", true⟩ (some h) = .ok m →
      m.lookup "explicit" =
        some (if l.isEmpty then MetaValue.null else .b (decide (l = [4])))) ∧
    (∀ (h : AudioHandle) (m : Meta),
      h.tags.lookup "rtng" = none →
      get_file_metadata ⟨".m4a", true⟩ (some h) = .ok m →
      m.lookup "explicit" = none) ∧
    (∀ (song : Song) (a b g1 g2 : String) (ar gr : List String),
      song.artists = a :: b :: ar → song.genres = g1 :: g2 :: gr →
      song.album_name ≠ "" → song.copyright_text ≠ "" → song.lyrics ≠ "" →
      song.download_url ≠ "" → isNatStr (pyTake song.date 4) = true →
      readOkLookups (writeRead ⟨".m4a", true⟩ song)
        [("explicit", some (.b song.explicit))]) := by
  refine ⟨?_, ?_, ?_, ?_⟩
  · intro song h0
    refine ⟨_, rfl, ?_⟩
    simp [hset, hsetIf, tset, encodeVal, pk, M4A_TAG_PRESET, TAG_PRESET,
      List.lookup, pyDrop_m4a]
  · intro h l m hd hread
    obtain ⟨mPre, r, m1, hpre, hdec, hpost, hart⟩ :=
      read_ok_structure ".m4a" h m
        ["album", "artist", "date", "title", "year", "originaldate", "comment",
         "group", "writer", "genre", "tracknumber", "albumartist", "discnumber",
         "cpil", "albumart", "encodedby", "copyright", "tempo", "lyrics"]
        ["woas"] "explicit" (by decide) hread
    have hg : hget ".m4a" h "explicit" = some (.vints l) := by
      simp [hget, pk, M4A_TAG_PRESET, List.lookup, hd]
    unfold decodeKey at hdec
    rw [hg] at hdec
    simp only [String.reduceEq, reduceIte] at hdec
    have hfields : ∀ k, ∀ r2, decodeKey ".m4a" h k = .ok r2 →
        ∀ f ∈ r2.map Prod.fst, f ∈ allowedFields ".m4a" k :=
      fun k r2 hr2 => decodeKey_fields_m4a k h r2 hr2
    have hpostE : ∀ k ∈ ["woas"], "explicit" ∉ allowedFields ".m4a" k := by decide
    cases l with
    | nil =>
      cases hdec
      rw [artistPost_lookup_ne m1 m "explicit" (by decide) hart,
        loopOver_ok_lookup ".m4a" h _ _ m1 "explicit" hpost
          hpostE (fun k _ => hfields k)]
      exact lookup_cons_self _ _ _
    | cons x xs =>
      cases hdec
      rw [artistPost_lookup_ne m1 m "explicit" (by decide) hart,
        loopOver_ok_lookup ".m4a" h _ _ m1 "explicit" hpost
          hpostE (fun k _ => hfields k)]
      exact lookup_cons_self _ _ _
  · intro h m hd hread
    obtain ⟨mPre, r, m1, hpre, hdec, hpost, hart⟩ :=
      read_ok_structure ".m4a" h m
        ["album", "artist", "date", "title", "year", "originaldate", "comment",
         "group", "writer", "genre", "tracknumber", "albumartist", "discnumber",
         "cpil", "albumart", "encodedby", "copyright", "tempo", "lyrics"]
        ["woas"] "explicit" (by decide) hread
    have hg : hget ".m4a" h "explicit" = none := by
      simp [hget, pk, M4A_TAG_PRESET, List.lookup, hd]
    unfold decodeKey at hdec
    rw [hg] at hdec
    simp only [String.reduceEq, reduceIte, TAG_TO_SONG, List.lookup] at hdec
    cases hdec
    have hfields : ∀ k, ∀ r2, decodeKey ".m4a" h k = .ok r2 →
        ∀ f ∈ r2.map Prod.fst, f ∈ allowedFields ".m4a" k :=
      fun k r2 hr2 => decodeKey_fields_m4a k h r2 hr2
    have hpostE : ∀ k ∈ ["woas"], "explicit" ∉ allowedFields ".m4a" k := by decide
    have hpreE : ∀ k ∈ ["album", "artist", "date", "title", "year",
        "originaldate", "comment", "group", "writer", "genre", "tracknumber",
        "albumartist", "discnumber", "cpil", "albumart", "encodedby",
        "copyright", "tempo", "lyrics"], "explicit" ∉ allowedFields ".m4a" k := by
      decide
    rw [artistPost_lookup_ne m1 m "explicit" (by decide) hart,
      loopOver_ok_lookup ".m4a" h _ _ m1 "explicit" hpost
        hpostE (fun k _ => hfields k)]
    show (applyUpdates mPre []).lookup "explicit" = none
    rw [show applyUpdates mPre [] = mPre from rfl,
      loopOver_ok_lookup ".m4a" h _ _ mPre "explicit" hpre
        hpreE (fun k _ => hfields k)]
    rfl
  · intro song a b g1 g2 ar gr h1 h2 h3 h4 h5 h6 h7
    have hf := writeRead_m4a_facts song a b g1 g2 ar gr h1 h2 h3 h4 h5 h6 h7
    revert hf
    cases hww : writeRead ⟨".m4a", true⟩ song with
    | ok m =>
      intro hf pr hpr
      simp only [List.mem_singleton] at hpr
      subst hpr
      exact hf _ (by simp)
    | oserror => intro hf; exact hf.elim
    | noneRes => intro hf; exact hf.elim
    | pyerror e => intro hf; exact hf.elim

/-- C3 witness: the writer stores `(4,)` for the explicit sample song, and
its explicit flag round-trips as `true`. -/
theorem C3_m4a_explicit_witness :
    (∃ h1, embed_metadata ⟨".m4a", true⟩ (some { tags := [], pictures := [] })
        sampleSong = .ok h1 ∧
      h1.tags.lookup "rtng" = some (.vints [4])) ∧
    readOkLookups (writeRead ⟨".m4a", true⟩ sampleSong)
      [("explicit", some (.b true))] :=
  ⟨C3_m4a_explicit.1 sampleSong { tags := [], pictures := [] },
   C3_m4a_explicit.2.2.2 sampleSong "A1" "A2" "g1" "g2" [] [] rfl rfl
     (by decide) (by decide) (by decide) (by decide) (by decide)⟩

/-! ### Claim C9 -/

/-- C9 counterexample: when the artist tag is absent the loop records the
`artists` field as `None`, and the final `song_meta["artists"][0]` raises a
`TypeError`, not an `IndexError`. -/
theorem C9_cex_absent_artists :
    get_file_metadata ⟨".flac", true⟩
      (some { tags := [("title", .vstrs ["T"])], pictures := [] }) =
      .pyerror .typeError ∧
    PyErr.typeError ≠ PyErr.indexError := by
  exact ⟨rfl, by decide⟩

/-- C9 (amended): the reader ends every successful read by setting the
synthesized `artist` field to the first element of the `artists` value; an
empty artists list raises an `IndexError`, a `None` artists value (absent
artist tag) raises a `TypeError`; in no case is the artist silently
defaulted. -/
theorem C9_artist_post :
    (∀ (m : Meta) (a : String) (rest : List String),
      m.lookup "artists" = some (.sl (a :: rest)) →
      artistPost m = .ok (("artist", .s a) :: m)) ∧
    (∀ m : Meta, m.lookup "artists" = some (.sl []) →
      artistPost m = .error .indexError) ∧
    (∀ (m : Meta) (t : String), m.lookup "artists" = some (.s t) → t ≠ "" →
      artistPost m = .ok (("artist", .s (pyTake t 1)) :: m)) ∧
    (∀ m : Meta, m.lookup "artists" = some MetaValue.null →
      artistPost m = .error .typeError) ∧
    (∀ (p : PyPath) (h : AudioHandle) (m : Meta),
      get_file_metadata p (some h) = .ok m →
      ∃ v, m.lookup "artists" = some v ∧
        ((∃ a rest, v = .sl (a :: rest) ∧ m.lookup "artist" = some (.s a)) ∨
         (∃ t, v = .s t ∧ ¬ t = "" ∧
           m.lookup "artist" = some (.s (pyTake t 1))))) := by
  refine ⟨?_, ?_, ?_, ?_, ?_⟩
  · intro m a rest hd
    unfold artistPost
    rw [hd]
  · intro m hd
    unfold artistPost
    rw [hd]
  · intro m t hd ht
    have hdn : t.data ≠ [] := by
      intro hdd
      apply ht
      cases t
      cases hdd
      rfl
    unfold artistPost
    rw [hd]
    simp [hdn]
  · intro m hd
    unfold artistPost
    rw [hd]
  · intro p h m hread
    unfold get_file_metadata at hread
    cases hpe : p.pathExists <;> rw [hpe] at hread
    · simp at hread
    · simp only [Bool.true_eq_false, if_false, ite_false, reduceIte] at hread
      cases hemp : h.tags.isEmpty <;> rw [hemp] at hread
      case true => simp at hread
      case false =>
        simp only [Bool.false_eq_true, if_false, ite_false, reduceIte] at hread
        cases hloop : readLoop p.suffix h <;> rw [hloop] at hread
        case error e => simp at hread
        case ok m1 =>
          simp only [] at hread
          cases hart : artistPost m1 <;> rw [hart] at hread
          case error e => simp at hread
          case ok m2 =>
            simp only [] at hread
            cases hread
            unfold artistPost at hart
            split at hart
            · cases hart
            · cases hart
            · rename_i a rest hlk
              cases hart
              refine ⟨.sl (a :: rest), ?_, Or.inl ⟨a, rest, rfl, ?_⟩⟩
              · rw [lookup_cons_ne _ _ _ _ (by decide)]
                exact hlk
              · exact lookup_cons_self _ _ _
            · rename_i t hlk
              split at hart
              · cases hart
              · rename_i hne
                cases hart
                refine ⟨.s t, ?_, Or.inr ⟨t, rfl, ?_, ?_⟩⟩
                · rw [lookup_cons_ne _ _ _ _ (by decide)]
                  exact hlk
                · intro heq
                  apply hne
                  rw [heq]
                  rfl
                · exact lookup_cons_self _ _ _
            · cases hart
            · cases hart

/-- C9 witness: the post-processing at concrete mappings. -/
theorem C9_artist_post_witness :
    artistPost [("artists", .sl ["X", "Y"])] =
      .ok [("artist", .s "X"), ("artists", .sl ["X", "Y"])] ∧
    artistPost [("artists", .sl [])] = .error .indexError ∧
    artistPost [("artists", MetaValue.null)] = .error .typeError :=
  ⟨C9_artist_post.1 [("artists", .sl ["X", "Y"])] "X" ["Y"] rfl,
   C9_artist_post.2.1 [("artists", .sl [])] rfl,
   C9_artist_post.2.2.2.1 [("artists", MetaValue.null)] rfl⟩

/-! ### Claim C1 -/

/-- C1 counterexample: for the sample song written to FLAC, the read-back
mapping has no track count at all, no disc-number field, and the disc-count
field holds the disc number (3) instead of the disc count (12) — so the
generic-format round trip does not reproduce track count or disc
number/count as the claim states. -/
theorem C1_cex_generic_counts :
    ∃ m, writeRead ⟨".flac", true⟩ sampleSong = .ok m ∧
      m.lookup "tracks_count" = none ∧
      m.lookup "disc_number" = none ∧
      m.lookup "disc_count" = some (.i 3) ∧
      sampleSong.tracks_count = 9 ∧
      sampleSong.disc_number = 3 ∧
      sampleSong.disc_count = 12 := by
  refine ⟨_, rfl, rfl, rfl, rfl, rfl, rfl, rfl⟩

/-- C1 (amended): for a song with all optional fields present, at least two
artists and genres, and a date starting with four digits, writing to a
fresh handle and reading it back reproduces title, artist list, album name,
genre list, copyright text, URL and lyrics in every format; track and disc
numbers and counts are reproduced for m4a and MP3, while the generic
formats reproduce only the track number and store the disc number under the
disc-count output field (track count and disc number are not reproduced);
for MP3 the URL and lyrics are reproduced via the two-phase frame
additions, and the comment frame is present and readable on the handle but
is not copied into the returned mapping. -/
theorem C1_round_trip :
    (∀ (p : PyPath),
      p = ⟨".flac", true⟩ ∨ p = ⟨".ogg", true⟩ ∨ p = ⟨".opus", true⟩ →
      ∀ (song : Song) (a b g1 g2 : String) (ar gr : List String),
      song.artists = a :: b :: ar → song.genres = g1 :: g2 :: gr →
      song.album_name ≠ "" → song.copyright_text ≠ "" → song.lyrics ≠ "" →
      song.download_url ≠ "" → isNatStr (pyTake song.date 4) = true →
      readOkLookups (writeRead p song)
        [("name", some (.s song.name)),
         ("artists", some (.sl song.artists)),
         ("artist", some (.s a)),
         ("album_name", some (.s song.album_name)),
         ("genres", some (.sl song.genres)),
         ("copyright_text", some (.s song.copyright_text)),
         ("lyrics", some (.s song.lyrics)),
         ("url", some (.s song.url)),
         ("track_number", some (.i song.track_number)),
         ("tracks_count", none),
         ("disc_count", some (.i song.disc_number)),
         ("disc_number", none)]) ∧
    (∀ (song : Song) (a b g1 g2 : String) (ar gr : List String),
      song.artists = a :: b :: ar → song.genres = g1 :: g2 :: gr →
      song.album_name ≠ "" → song.copyright_text ≠ "" → song.lyrics ≠ "" →
      song.download_url ≠ "" → isNatStr (pyTake song.date 4) = true →
      readOkLookups (writeRead ⟨".m4a", true⟩ song)
        [("name", some (.s song.name)),
         ("artists", some (.sl song.artists)),
         ("artist", some (.s a)),
         ("album_name", some (.s song.album_name)),
         ("genres", some (.sl song.genres)),
         ("copyright_text", some (.s song.copyright_text)),
         ("lyrics", some (.s song.lyrics)),
         ("url", some (.s song.url)),
         ("track_number", some (.i song.track_number)),
         ("tracks_count", some (.i song.tracks_count)),
         ("disc_number", some (.i song.disc_number)),
         ("disc_count", some (.i song.disc_count)),
         ("explicit", some (.b song.explicit))]) ∧
    (∀ (song : Song) (a b g1 g2 : String) (ar gr : List String),
      song.artists = a :: b :: ar → song.genres = g1 :: g2 :: gr →
      song.album_name ≠ "" → song.copyright_text ≠ "" → song.lyrics ≠ "" →
      song.download_url ≠ "" → isNatStr (pyTake song.date 4) = true →
      readOkLookups (writeRead ⟨".mp3", true⟩ song)
        [("name", some (.s song.name)),
         ("artists", some (.sl song.artists)),
         ("artist", some (.s a)),
         ("album_name", some (.s song.album_name)),
         ("genres", some (.sl song.genres)),
         ("copyright_text", some (.s song.copyright_text)),
         ("lyrics", some (.s song.lyrics)),
         ("url", some (.s song.url)),
         ("track_number", some (.i song.track_number)),
         ("tracks_count", some (.i song.tracks_count)),
         ("disc_number", some (.i song.disc_number)),
         ("disc_count", some (.i song.disc_count))]) ∧
    (∀ song : Song, song.lyrics ≠ "" → song.download_url ≠ "" →
      ∃ h, embed_metadata ⟨".mp3", true⟩
          (some { tags := [], pictures := [] }) song = .ok h ∧
        h.tags.lookup "WOAS" = some (.vframe (.url song.url)) ∧
        h.tags.lookup "USLT::XXX" = some (.vframe (.uslt song.lyrics)) ∧
        h.tags.lookup "COMM::XXX" = some (.vframe (.comm [song.download_url]))) :=
  ⟨fun p hp song a b g1 g2 ar gr h1 h2 h3 h4 h5 h6 h7 =>
      writeRead_generic_facts p hp song a b g1 g2 ar gr h1 h2 h3 h4 h5 h6 h7,
   fun song a b g1 g2 ar gr h1 h2 h3 h4 h5 h6 h7 =>
      writeRead_m4a_facts song a b g1 g2 ar gr h1 h2 h3 h4 h5 h6 h7,
   fun song a b g1 g2 ar gr h1 h2 h3 h4 h5 h6 h7 =>
      writeRead_mp3_facts song a b g1 g2 ar gr h1 h2 h3 h4 h5 h6 h7,
   fun song h5 h6 => mp3_frames_present song h5 h6⟩

/-- C1 witness: the amended round trip instantiated at the sample song for
FLAC and m4a. -/
theorem C1_round_trip_witness :
    readOkLookups (writeRead ⟨".flac", true⟩ sampleSong)
      [("name", some (.s sampleSong.name)),
       ("artists", some (.sl sampleSong.artists)),
       ("artist", some (.s "A1")),
       ("album_name", some (.s sampleSong.album_name)),
       ("genres", some (.sl sampleSong.genres)),
       ("copyright_text", some (.s sampleSong.copyright_text)),
       ("lyrics", some (.s sampleSong.lyrics)),
       ("url", some (.s sampleSong.url)),
       ("track_number", some (.i sampleSong.track_number)),
       ("tracks_count", none),
       ("disc_count", some (.i sampleSong.disc_number)),
       ("disc_number", none)] ∧
    readOkLookups (writeRead ⟨".m4a", true⟩ sampleSong)
      [("name", some (.s sampleSong.name)),
       ("artists", some (.sl sampleSong.artists)),
       ("artist", some (.s "A1")),
       ("album_name", some (.s sampleSong.album_name)),
       ("genres", some (.sl sampleSong.genres)),
       ("copyright_text", some (.s sampleSong.copyright_text)),
       ("lyrics", some (.s sampleSong.lyrics)),
       ("url", some (.s sampleSong.url)),
       ("track_number", some (.i sampleSong.track_number)),
       ("tracks_count", some (.i sampleSong.tracks_count)),
       ("disc_number", some (.i sampleSong.disc_number)),
       ("disc_count", some (.i sampleSong.disc_count)),
       ("explicit", some (.b sampleSong.explicit))] :=
  ⟨C1_round_trip.1 ⟨".flac", true⟩ (Or.inl rfl) sampleSong "A1" "A2" "g1" "g2"
      [] [] rfl rfl (by decide) (by decide) (by decide) (by decide) (by decide),
   C1_round_trip.2.1 sampleSong "A1" "A2" "g1" "g2" [] [] rfl rfl
      (by decide) (by decide) (by decide) (by decide) (by decide)⟩
